import Mathlib
set_option maxRecDepth 40000
set_option maxHeartbeats 4000000

/-!
Verification of the synthetic mobile-typo generation core
(`src/data/english_variants.py` and `src/data/generate_typos.py`).

The Python code is shallowly embedded:

* Python strings are Lean `String` (a structure over `List Char`);
  the character predicates (`lower`, `upper`, `isupper`, `isalnum`,
  `isdigit`, `strip`, …) are modelled on the ASCII fragment, which covers
  every string any theorem below evaluates.
* Python dicts become association lists with first-match lookup; literal
  duplicate keys (only `'fulfill'` in the spelling table and `'have'` in the
  thumb-typo table) are resolved exactly as Python dict literals resolve
  them (last value wins), so each list below has pairwise distinct keys and
  lookup agrees with the dict.
* Python sets are modelled as lists used only through membership.
* Calls to the process-global pseudorandom generator are modelled as
  explicit oracle arguments (rational draws for `random.random()`
  comparisons, chosen values for `random.choices` / `random.choice` /
  `random.randint`); theorems quantify over all oracles, i.e. over every
  outcome of the random draws.
-/

/-- ASCII lowercasing of one character, as Python `str.lower` acts on ASCII. -/
def lowerChar (c : Char) : Char :=
  if 'A' ≤ c ∧ c ≤ 'Z' then Char.ofNat (c.toNat + 32) else c

/-- ASCII uppercasing of one character, as Python `str.upper` acts on ASCII. -/
def upperChar (c : Char) : Char :=
  if 'a' ≤ c ∧ c ≤ 'z' then Char.ofNat (c.toNat - 32) else c

/-- ASCII uppercase test (Python `ch.isupper`). -/
def isUpperChar (c : Char) : Bool := 'A' ≤ c && c ≤ 'Z'

/-- ASCII lowercase test (Python `ch.islower`). -/
def isLowerChar (c : Char) : Bool := 'a' ≤ c && c ≤ 'z'

/-- ASCII letter test. -/
def isAlphaChar (c : Char) : Bool := isUpperChar c || isLowerChar c

/-- ASCII digit test (Python `ch.isdigit` on ASCII). -/
def isDigitChar (c : Char) : Bool := '0' ≤ c && c ≤ '9'

/-- ASCII alphanumeric test (Python `ch.isalnum` on ASCII). -/
def isAlnumChar (c : Char) : Bool := isAlphaChar c || isDigitChar c

/-- Python `s.lower()` on the ASCII fragment. -/
def pyLower (s : String) : String := ⟨s.data.map lowerChar⟩

/-- Python `s.upper()` on the ASCII fragment. -/
def pyUpper (s : String) : String := ⟨s.data.map upperChar⟩

/-- Python `s.isupper()`: at least one cased character and no lowercase one. -/
def pyIsUpper (s : String) : Bool :=
  s.data.any isAlphaChar && s.data.all (fun c => !(isLowerChar c))

/-- Python `s.capitalize()`: first character uppercased, the rest lowercased. -/
def pyCapitalize (s : String) : String :=
  match s.data with
  | [] => ⟨[]⟩
  | c :: rest => ⟨upperChar c :: rest.map lowerChar⟩

/-- Python `s[0].isupper() if s else False`. -/
def firstIsUpper (s : String) : Bool :=
  match s.data with
  | [] => false
  | c :: _ => isUpperChar c

/-- Python `s[0].upper() + s[1:]` (used by the thumb-typo case fix-up). -/
def upperFirstChar (s : String) : String :=
  match s.data with
  | [] => s
  | c :: rest => ⟨upperChar c :: rest⟩

/-- Python `s[0].lower() + s[1:]` (the forgot-shift post-processing step). -/
def lowerFirstChar (s : String) : String :=
  match s.data with
  | [] => s
  | c :: rest => ⟨lowerChar c :: rest⟩

/-- Python `s.isdigit()` on the ASCII fragment: nonempty and all digits. -/
def pyIsDigit (s : String) : Bool :=
  !s.data.isEmpty && s.data.all isDigitChar

/-- Python `s.strip(chars)`: drop characters of `chars` from both ends. -/
def stripChars (s : String) (chars : List Char) : String :=
  let d := s.data.dropWhile (· ∈ chars)
  ⟨(d.reverse.dropWhile (· ∈ chars)).reverse⟩

/-- Python `s.replace(c, '')`: remove every occurrence of one character. -/
def removeChar (s : String) (c : Char) : String :=
  ⟨s.data.filter (· ≠ c)⟩

/-- Whitespace test for Python `str.split()` (the texts use only these). -/
def isWsChar (c : Char) : Bool := c = ' ' || c = '\t' || c = '\n' || c = '\r'

/-- Helper for `splitWs`, accumulating the current token reversed. -/
def splitWsAux : List Char → List Char → List String
  | [], cur => if cur.isEmpty then [] else [⟨cur.reverse⟩]
  | c :: rest, cur =>
    if isWsChar c then
      if cur.isEmpty then splitWsAux rest []
      else (⟨cur.reverse⟩ : String) :: splitWsAux rest []
    else splitWsAux rest (c :: cur)

/-- Python `s.split()`: split on whitespace runs, discarding empty tokens. -/
def splitWs (s : String) : List String := splitWsAux s.data []

/-- First-match association-list lookup, the model of Python dict lookup
(all embedded dicts have pairwise distinct keys). -/
def lookupKey {κ α : Type} [DecidableEq κ] (k : κ) : List (κ × α) → Option α
  | [] => none
  | (a, b) :: rest => if k = a then some b else lookupKey k rest
/-! Embedding of `src/data/english_variants.py`. -/

/-- SPELLING_US_TO_UK (`english_variants.py` lines 28-268).  The Python dict
literal lists the key `'fulfill'` twice with the same value `'fulfil'`
(lines 229 and 238); the resulting dict holds it once, so the repeated entry
is written once here. -/
def SPELLING_US_TO_UK : List (String × String) := [
  ("color", "colour"),
  ("colors", "colours"),
  ("colored", "coloured"),
  ("coloring", "colouring"),
  ("favor", "favour"),
  ("favors", "favours"),
  ("favored", "favoured"),
  ("favorite", "favourite"),
  ("favorites", "favourites"),
  ("flavor", "flavour"),
  ("flavors", "flavours"),
  ("flavored", "flavoured"),
  ("harbor", "harbour"),
  ("harbors", "harbours"),
  ("honor", "honour"),
  ("honors", "honours"),
  ("honored", "honoured"),
  ("honoring", "honouring"),
  ("humor", "humour"),
  ("humors", "humours"),
  ("labor", "labour"),
  ("labors", "labours"),
  ("labored", "laboured"),
  ("laboring", "labouring"),
  ("neighbor", "neighbour"),
  ("neighbors", "neighbours"),
  ("neighboring", "neighbouring"),
  ("neighborhood", "neighbourhood"),
  ("rumor", "rumour"),
  ("rumors", "rumours"),
  ("savior", "saviour"),
  ("saviors", "saviours"),
  ("behavior", "behaviour"),
  ("behaviors", "behaviours"),
  ("endeavor", "endeavour"),
  ("endeavors", "endeavours"),
  ("center", "centre"),
  ("centers", "centres"),
  ("centered", "centred"),
  ("centering", "centring"),
  ("theater", "theatre"),
  ("theaters", "theatres"),
  ("meter", "metre"),
  ("meters", "metres"),
  ("liter", "litre"),
  ("liters", "litres"),
  ("fiber", "fibre"),
  ("fibers", "fibres"),
  ("caliber", "calibre"),
  ("somber", "sombre"),
  ("specter", "spectre"),
  ("scepter", "sceptre"),
  ("luster", "lustre"),
  ("meager", "meagre"),
  ("organize", "organise"),
  ("organizes", "organises"),
  ("organized", "organised"),
  ("organizing", "organising"),
  ("organization", "organisation"),
  ("organizations", "organisations"),
  ("recognize", "recognise"),
  ("recognizes", "recognises"),
  ("recognized", "recognised"),
  ("recognizing", "recognising"),
  ("realize", "realise"),
  ("realizes", "realises"),
  ("realized", "realised"),
  ("realizing", "realising"),
  ("apologize", "apologise"),
  ("apologizes", "apologises"),
  ("apologized", "apologised"),
  ("analyze", "analyse"),
  ("analyzes", "analyses"),
  ("analyzed", "analysed"),
  ("analyzing", "analysing"),
  ("paralyze", "paralyse"),
  ("paralyzed", "paralysed"),
  ("criticize", "criticise"),
  ("criticizes", "criticises"),
  ("criticized", "criticised"),
  ("customize", "customise"),
  ("customizes", "customises"),
  ("customized", "customised"),
  ("minimize", "minimise"),
  ("minimizes", "minimises"),
  ("minimized", "minimised"),
  ("maximize", "maximise"),
  ("maximizes", "maximises"),
  ("maximized", "maximised"),
  ("optimize", "optimise"),
  ("optimizes", "optimises"),
  ("optimized", "optimised"),
  ("prioritize", "prioritise"),
  ("prioritizes", "prioritises"),
  ("prioritized", "prioritised"),
  ("authorize", "authorise"),
  ("authorizes", "authorises"),
  ("authorized", "authorised"),
  ("summarize", "summarise"),
  ("summarizes", "summarises"),
  ("summarized", "summarised"),
  ("memorize", "memorise"),
  ("memorizes", "memorises"),
  ("memorized", "memorised"),
  ("categorize", "categorise"),
  ("categorizes", "categorises"),
  ("categorized", "categorised"),
  ("standardize", "standardise"),
  ("standardized", "standardised"),
  ("specialize", "specialise"),
  ("specializes", "specialises"),
  ("specialized", "specialised"),
  ("visualize", "visualise"),
  ("visualized", "visualised"),
  ("finalize", "finalise"),
  ("finalized", "finalised"),
  ("utilize", "utilise"),
  ("utilized", "utilised"),
  ("defense", "defence"),
  ("offense", "offence"),
  ("license", "licence"),
  ("practice", "practise"),
  ("pretense", "pretence"),
  ("catalog", "catalogue"),
  ("catalogs", "catalogues"),
  ("dialog", "dialogue"),
  ("dialogs", "dialogues"),
  ("analog", "analogue"),
  ("monolog", "monologue"),
  ("prolog", "prologue"),
  ("epilog", "epilogue"),
  ("judgment", "judgement"),
  ("judgments", "judgements"),
  ("acknowledgment", "acknowledgement"),
  ("acknowledgments", "acknowledgements"),
  ("traveled", "travelled"),
  ("traveling", "travelling"),
  ("traveler", "traveller"),
  ("travelers", "travellers"),
  ("canceled", "cancelled"),
  ("canceling", "cancelling"),
  ("labeled", "labelled"),
  ("labeling", "labelling"),
  ("modeled", "modelled"),
  ("modeling", "modelling"),
  ("counselor", "counsellor"),
  ("counselors", "counsellors"),
  ("jeweler", "jeweller"),
  ("jewelers", "jewellers"),
  ("fueled", "fuelled"),
  ("fueling", "fuelling"),
  ("leveled", "levelled"),
  ("leveling", "levelling"),
  ("signaled", "signalled"),
  ("signaling", "signalling"),
  ("dialed", "dialled"),
  ("dialing", "dialling"),
  ("marveled", "marvelled"),
  ("marveling", "marvelling"),
  ("marvelous", "marvellous"),
  ("gray", "grey"),
  ("grays", "greys"),
  ("program", "programme"),
  ("programs", "programmes"),
  ("check", "cheque"),
  ("checks", "cheques"),
  ("tire", "tyre"),
  ("tires", "tyres"),
  ("airplane", "aeroplane"),
  ("airplanes", "aeroplanes"),
  ("pajamas", "pyjamas"),
  ("mom", "mum"),
  ("moms", "mums"),
  ("draft", "draught"),
  ("drafts", "draughts"),
  ("plow", "plough"),
  ("plows", "ploughs"),
  ("plowed", "ploughed"),
  ("skeptic", "sceptic"),
  ("skeptics", "sceptics"),
  ("skeptical", "sceptical"),
  ("donut", "doughnut"),
  ("donuts", "doughnuts"),
  ("curb", "kerb"),
  ("curbs", "kerbs"),
  ("fulfill", "fulfil"),
  ("fulfills", "fulfils"),
  ("fulfilled", "fulfilled"),
  ("skillful", "skilful"),
  ("willful", "wilful"),
  ("enrollment", "enrolment"),
  ("enrollments", "enrolments"),
  ("installment", "instalment"),
  ("installments", "instalments"),
  ("aging", "ageing"),
  ("routing", "routeing"),
  ("artifact", "artefact"),
  ("artifacts", "artefacts"),
  ("medieval", "mediaeval"),
  ("maneuver", "manoeuvre"),
  ("maneuvers", "manoeuvres"),
  ("maneuvered", "manoeuvred"),
  ("pediatric", "paediatric"),
  ("pediatrics", "paediatrics"),
  ("orthopedic", "orthopaedic"),
  ("anesthetic", "anaesthetic"),
  ("anesthesia", "anaesthesia"),
  ("estrogen", "oestrogen"),
  ("fetus", "foetus"),
  ("diarrhea", "diarrhoea"),
  ("leukemia", "leukaemia"),
  ("edema", "oedema"),
  ("encyclopedia", "encyclopaedia"),
  ("archeology", "archaeology"),
  ("ax", "axe"),
  ("cozy", "cosy"),
  ("licorice", "liquorice"),
  ("molt", "moult"),
  ("mustache", "moustache"),
  ("omelet", "omelette"),
  ("smolder", "smoulder"),
  ("story", "storey"),
  ("stories", "storeys"),
  ]

/-- SPELLING_UK_TO_US (`english_variants.py` line 271):
`{v: k for k, v in SPELLING_US_TO_UK.items()}`.  The forward values are
pairwise distinct (see `spelling_values_nodup`), so the comprehension is
exactly the swapped list. -/
def SPELLING_UK_TO_US : List (String × String) :=
  SPELLING_US_TO_UK.map (fun p => (p.2, p.1))

/-- Per-variant configuration record (one entry of VARIANT_CONFIG).
The Python dict key `'protected'` is a Lean keyword, embedded as
`protectedWords`. -/
structure VariantConfig where
  name : String
  markets : List String
  spelling : String
  protectedWords : List String
deriving DecidableEq

def configUS : VariantConfig where
  name := "American English"
  markets := ["USA", "Canada"]
  spelling := "US"
  protectedWords := []

def configUK : VariantConfig where
  name := "British English"
  markets := ["UK", "EU", "Malta"]
  spelling := "UK"
  protectedWords :=
    ["innit", "bloody", "blimey", "cheers", "mate", "rubbish",
     "dodgy", "gobsmacked", "chuffed"]

def configAU : VariantConfig where
  name := "Australian English"
  markets := ["Australia"]
  spelling := "UK"
  protectedWords :=
    ["arvo", "servo", "bottle-o", "smoko", "brekkie", "barbie",
     "sunnies", "thongs", "mate", "reckon", "heaps", "keen",
     "no worries", "strewth", "crikey", "fair dinkum", "bogan", "drongo",
     "sheila", "bloke", "ripper", "stoked", "sicko", "maccas"]

def configNZ : VariantConfig where
  name := "New Zealand English"
  markets := ["New Zealand"]
  spelling := "UK"
  protectedWords :=
    ["bro", "cuz", "sweet as", "choice", "chur", "yeah nah",
     "nah yeah", "mint", "mean", "hard out", "all good", "ka pai",
     "kia ora", "whanau", "tamariki", "tiki tour", "tramping", "jandals",
     "dairy", "bach"]

def configSG : VariantConfig where
  name := "Singapore English (Singlish)"
  markets := ["Singapore"]
  spelling := "UK"
  protectedWords :=
    ["lah", "leh", "lor", "meh", "hor", "sia",
     "liao", "ah", "one", "already", "can", "cannot",
     "got", "never", "still got", "how come", "is it", "steady",
     "shiok", "sian", "blur", "kiasu", "kiasi", "paiseh",
     "bojio", "jialat", "alamak", "wah", "walao", "aiyo",
     "aiyah", "oi", "eh", "hah", "makan", "chope",
     "lepak", "kopi", "teh", "tabao", "dabao", "hawker",
     "kopitiam", "ang moh", "gahmen", "atas", "sua ku", "act blur",
     "kena", "arrow", "sabo", "wayang", "on", "off",
     "ownself", "liddat", "likdat", "machiam"]

def configMY : VariantConfig where
  name := "Malaysian English (Manglish)"
  markets := ["Malaysia"]
  spelling := "UK"
  protectedWords :=
    ["lah", "mah", "lor", "leh", "meh", "one",
     "got", "already", "can", "cannot", "wei", "woi",
     "eh", "aiyo", "aiyoh", "walao", "yalor", "haiya",
     "aiya", "boss", "macha", "dei", "macam", "cincai",
     "gostan", "jalan", "makan", "mamak", "tapau", "yum cha",
     "kaw kaw", "terror", "geng", "syok", "action", "outstation",
     "lepak", "yamcha", "potong", "cabut", "kantoi"]

def configIN : VariantConfig where
  name := "Indian English"
  markets := ["India", "Nepal", "Bangladesh"]
  spelling := "UK"
  protectedWords :=
    ["yaar", "yar", "na", "no", "hai", "haan",
     "ji", "arey", "arre", "arrey", "accha", "achha",
     "theek", "thik", "bas", "chalo", "kya", "bhai",
     "didi", "uncle", "aunty", "auntie", "beta", "beti",
     "babu", "sahib", "ji", "prepone", "revert", "do the needful",
     "kindly", "intimate", "passed out", "mugging", "timepass", "eve teasing",
     "godown", "lakh", "crore", "dabba", "dabbawala", "pukka",
     "jugaad", "bindaas", "fundoo", "bakwas", "timepass", "tension",
     "funda", "gyaan", "desi", "firangi", "gora"]

def configPH : VariantConfig where
  name := "Philippine English"
  markets := ["Philippines"]
  spelling := "US"
  protectedWords :=
    ["po", "opo", "ho", "naman", "ba", "daw",
     "raw", "pala", "kasi", "talaga", "ano", "di ba",
     "diba", "ganun", "ganon", "edi", "sige", "ge",
     "hala", "ay", "nako", "sus", "hay", "aba",
     "aray", "lodi", "petmalu", "werpa", "for a while", "open the light",
     "close the light", "CR", "comfort room", "ref", "aircon", "brownout",
     "blow out", "despedida", "merienda", "balikbayan", "pasalubong", "utang na loob",
     "kilig", "gigil", "basta"]

def configNG : VariantConfig where
  name := "Nigerian English"
  markets := ["Nigeria", "Ghana", "West Africa"]
  spelling := "UK"
  protectedWords :=
    ["abi", "sha", "shaa", "sef", "o", "oh",
     "na", "dey", "wey", "wetin", "wahala", "gist",
     "gisting", "yawa", "chop", "dash", "kolo", "craze",
     "japa", "sabi", "no wahala", "e go be", "how far", "how body",
     "bros", "oga", "madam", "abeg", "biko", "jare",
     "ehen", "ehn", "shey", "oya", "ginger", "pepper",
     "strong thing", "enter", "drop", "pick", "flash", "okada",
     "danfo", "keke", "mama put", "buka", "suya", "small chops",
     "ashewo", "packaging", "shakara", "flex", "slay", "on point",
     "gbas gbos"]

def configZA : VariantConfig where
  name := "South African English"
  markets := ["South Africa", "Namibia", "Zimbabwe"]
  spelling := "UK"
  protectedWords :=
    ["lekker", "kiff", "kif", "sharp", "shap", "eish",
     "eina", "ag", "shame", "ja", "nee", "dankie",
     "baie", "braai", "bru", "boet", "china", "oke",
     "dof", "dwaal", "gatvol", "now now", "just now", "robot",
     "circle", "bakkie", "tackies", "takkies", "slops", "howzit",
     "yebo", "aikona", "ubuntu", "sangoma", "toyi-toyi", "vuvuzela",
     "braai", "potjie", "bunny chow", "boerewors", "biltong", "rooibos",
     "moerse", "lank"]

def configHK : VariantConfig where
  name := "Hong Kong English"
  markets := ["Hong Kong", "Macau"]
  spelling := "UK"
  protectedWords :=
    ["lah", "ah", "la", "lor", "leh", "geh",
     "meh", "wor", "ga", "ge", "add oil", "fighting",
     "aiya", "aiyo", "wah", "haiya", "siu mai", "char siu",
     "dim sum", "yum cha", "dai pai dong", "wet market", "MTR", "octopus",
     "minibus", "ding ding", "helper", "domestic helper", "expat", "gweilo",
     "ABC", "BBC", "can", "cannot", "got", "have",
     "play", "do", "make"]

def configIE : VariantConfig where
  name := "Irish English (Hiberno)"
  markets := ["Ireland"]
  spelling := "UK"
  protectedWords :=
    ["grand", "craic", "crack", "fierce", "deadly", "gas",
     "sound", "class", "yer man", "yer one", "yer wan", "himself",
     "herself", "bold", "press", "messages", "runners", "jumper",
     "minerals", "banjaxed", "knackered", "eejit", "gobshite", "feck",
     "acting the maggot", "giving out", "what way", "amnt", "tis", "twas",
     "yoke", "yera", "ara", "sure look", "slainte", "cead mile failte",
     "go raibh maith agat", "ta", "nil"]

def configSC : VariantConfig where
  name := "Scottish English"
  markets := ["Scotland"]
  spelling := "UK"
  protectedWords :=
    ["aye", "nae", "wee", "braw", "bonnie", "ken",
     "kent", "dinna", "didnae", "cannae", "willnae", "wouldnae",
     "shouldnae", "havnae", "isnae", "wasnae", "och", "hoots",
     "wheesht", "blether", "haver", "scunner", "crabbit", "dreich",
     "glaikit", "numpty", "bampot", "radge", "bairn", "lad",
     "lass", "loch", "ben", "brae", "kirk", "croft",
     "burn", "glen", "strath", "tattie", "neep", "haggis",
     "hogmanay", "ceilidh", "slàinte"]

def VARIANT_CONFIG : List (String × VariantConfig) := [
  ("US", configUS),
  ("UK", configUK),
  ("AU", configAU),
  ("NZ", configNZ),
  ("SG", configSG),
  ("MY", configMY),
  ("IN", configIN),
  ("PH", configPH),
  ("NG", configNG),
  ("ZA", configZA),
  ("HK", configHK),
  ("IE", configIE),
  ("SC", configSC)]

def EV_SAMPLE_SENTENCES : List String := [
  "I'll meet you at the center of town.",
  "What's your favorite color?",
  "The theater is just around the corner.",
  "Can you organize the meeting for tomorrow?",
  "I realized I left my phone at home.",
  "Let me check my schedule and get back to you.",
  "The neighbor's dog has been barking all night.",
  "I need to apologize for being late.",
  "She has a great sense of humor.",
  "The program starts at eight o'clock.",
  "We need to finalize the report by Friday.",
  "Can you summarize the main points?",
  "The team analyzed the data carefully.",
  "I'll authorize the payment today.",
  "Let's prioritize the urgent tasks.",
  "The organization is planning a restructure.",
  "We should optimize the workflow.",
  "I recognize that this is challenging.",
  "The defense team prepared their case.",
  "Please catalog all the items.",
  "I traveled to London last summer.",
  "The airplane landed on time.",
  "Check the tire pressure before driving.",
  "The draft is coming through the window.",
  "She wore her favorite pajamas.",
  "The jewelry store is closed today.",
  "I need to refuel the car.",
  "The counselor gave good advice.",
  "It was a gray and cloudy day.",
  "Mom is coming to visit next week.",
  "That donut looks delicious.",
  "I'm skeptical about the results.",
  "The movie was marvelous.",
  "He has a thick mustache.",
  "I made an omelet for breakfast.",
  "The building has ten stories.",
  "Let me fulfill your request.",
  "She's very skillful at her job.",
  "The artifact was found in Egypt.",
  "They maneuvered through traffic."]

def regionalSG : List String := [
  "This one very shiok lah!",
  "Wah, the queue so long sia.",
  "Can help me chope this seat ah?",
  "Later go makan, you want?",
  "Aiyo, I so blur today.",
  "Don't be so kiasu lah.",
  "Why you never tell me earlier leh?",
  "This place damn atas one.",
  "Aiyah, kena arrow again.",
  "Wa lao eh, so jialat.",
  "You eat already or not?",
  "The kopitiam downstairs got good kopi.",
  "I paiseh to ask him leh.",
  "This one macam not right lor.",
  "Ok lah, I do it myself.",
  "Today very sian, nothing to do.",
  "You bojio me go!",
  "Steady lah bro!",
  "How come liddat one?",
  "Is it? I didn't know sia."]

def regionalMY : List String := [
  "Wah, this food damn terror lah!",
  "Boss, one teh tarik please.",
  "Let's go mamak later lah.",
  "Aiyo, so mahal one this.",
  "Can or not? I need answer now.",
  "Wei, you going where ah?",
  "Haiya, traffic jam again.",
  "This one cincai do can already lah.",
  "Let's lepak at my place.",
  "Don't action so much lah.",
  "I outstation next week.",
  "Gostan a bit, you blocking me.",
  "Syok sendiri only you.",
  "Why you so geng one?",
  "Yalor, I also think so.",
  "Jom yamcha tonight!",
  "Faster lah, we late already.",
  "This curry kaw kaw one.",
  "He kantoi already, everyone knows.",
  "Potong stim lah you."]

def regionalIN : List String := [
  "Please do the needful and revert back.",
  "I will intimate you once done.",
  "The meeting got preponed to 2 PM.",
  "Arey yaar, what happened?",
  "Accha, I understand now.",
  "One second, I am coming only.",
  "What is your good name?",
  "Kindly adjust a little bit.",
  "I passed out from IIT in 2015.",
  "He's doing timepass only.",
  "This is very tension giving.",
  "Let me give you some gyaan on this.",
  "Chalo, let's go now.",
  "Bas, that's enough.",
  "Theek hai, no problem.",
  "Uncle, can you help me?",
  "This is very fundoo idea yaar.",
  "He's a total bakwas person.",
  "I am having some doubts.",
  "My cousin brother is coming today."]

def regionalPH : List String := [
  "Wait lang po, for a while.",
  "Sige, I'll do it na.",
  "Can you open the light please?",
  "The CR is over there.",
  "Ay nako, I forgot again!",
  "It's so traffic outside.",
  "I'll get my ref and bring some food.",
  "There's a brownout in our area.",
  "We had a blow out for her birthday.",
  "Did you bring pasalubong?",
  "I'm so kilig right now!",
  "This makes me gigil!",
  "Basta, just do it.",
  "That's so petmalu, lodi!",
  "Talaga? I didn't know that.",
  "Kasi, I was busy eh.",
  "Edi wow, good for you.",
  "Hala, we're late!",
  "Close the aircon, it's cold.",
  "I have a despedida party next week."]

def regionalNG : List String := [
  "How far, my guy?",
  "No wahala, we go sort am.",
  "Abeg, help me with this.",
  "The thing dey pepper me sha.",
  "Oya, make we go!",
  "Wetin you dey do?",
  "E go be, no worry.",
  "This gist is too much!",
  "Bros, I dey come.",
  "That one na wahala o.",
  "Shey you understand?",
  "Na so the thing be.",
  "I wan chop something.",
  "Make we go mama put.",
  "This suya is on point!",
  "Ehen, I remember now.",
  "Oga, please help me.",
  "You sabi this thing well well.",
  "Dem dey ginger me.",
  "I don japa already."]

def regionalZA : List String := [
  "Howzit my china!",
  "That braai was lekker!",
  "Eish, what a mission.",
  "I'll do it now now.",
  "Just now I was there.",
  "Sharp sharp, see you later.",
  "This place is moerse nice.",
  "Stop at the robot please.",
  "I'm gatvol with this traffic.",
  "Shame, that's so sad.",
  "Ja nee, it's complicated.",
  "The biltong here is kiff.",
  "Let me get my takkies.",
  "I came with my bakkie.",
  "This boerewors is baie lekker!",
  "Ag man, don't stress.",
  "That oke is a bit dof.",
  "I'm in a dwaal today.",
  "Yebo, I agree with you.",
  "We need more ubuntu here."]

def regionalHK : List String := [
  "Add oil! You can do it!",
  "Let's go yum cha tomorrow.",
  "Take the MTR, it's faster.",
  "The wet market closes early.",
  "Aiya, I forgot my octopus card!",
  "The ding ding is very slow.",
  "My helper is on leave today.",
  "This char siu is amazing lah!",
  "Wah, so expensive ah!",
  "Can can, no problem.",
  "Fighting! Good luck!",
  "Let's eat at the dai pai dong.",
  "The dim sum here is good ge.",
  "I'm an ABC, born in America.",
  "That gweilo speaks Cantonese!",
  "The minibus is faster lor.",
  "Got time or not?",
  "This one very nice wor.",
  "Haiya, so troublesome.",
  "The siu mai here is the best!"]

def regionalIE : List String := [
  "Ah sure, it'll be grand.",
  "The craic was mighty last night!",
  "That's pure gas altogether.",
  "Yer man over there said so.",
  "I'm absolutely knackered.",
  "Stop acting the maggot!",
  "She's always giving out about something.",
  "What way are you going?",
  "That's a deadly idea!",
  "The young fella is being bold.",
  "I need to get the messages.",
  "Put on your runners, we're late.",
  "Get us some minerals from the shop.",
  "The car is totally banjaxed.",
  "That yoke over there is broken.",
  "Yera, don't worry about it.",
  "Sure look, it is what it is.",
  "Your one from down the road.",
  "Tis a fierce cold day.",
  "Sláinte! Good health to you!"]

def regionalSC : List String := [
  "Aye, I ken what you mean.",
  "That's a braw wee idea!",
  "Och, dinnae worry about it.",
  "The bairn is sleeping upstairs.",
  "She's a bonnie lass.",
  "I cannae do that right now.",
  "Wheesht! Be quiet!",
  "Stop your blethering!",
  "That's pure brilliant, pal!",
  "The weather's awfy dreich today.",
  "He's a right numpty.",
  "Are you coming to the ceilidh?",
  "Let's go up the ben.",
  "The burn is running high today.",
  "I'm fair scunnered with this.",
  "She's in a crabbit mood.",
  "That's a glaikit thing to say.",
  "Happy Hogmanay everyone!",
  "The kirk is just up the brae.",
  "I'll have some tatties and neeps."]

def regionalAU : List String := [
  "G'day mate, how's it going?",
  "No worries, she'll be right!",
  "That's fair dinkum, mate.",
  "Let's have a barbie this arvo.",
  "I'm heading to the servo.",
  "Grab some snags for the barbie.",
  "Strewth, that was close!",
  "He's a bit of a drongo.",
  "That sheila is really nice.",
  "This is heaps good!",
  "I reckon we should go.",
  "I'm absolutely stoked!",
  "Let's go to Maccas.",
  "Crikey, look at that!",
  "Put on your sunnies, it's bright.",
  "I left my thongs at the beach.",
  "That bloke is a ripper!",
  "Time for smoko.",
  "Let's grab a bottle-o run.",
  "I'm keen as mustard!"]

def regionalNZ : List String := [
  "Sweet as, bro!",
  "Chur, thanks for that.",
  "That's pretty choice, aye.",
  "Yeah nah, I'm not sure.",
  "Nah yeah, let's do it!",
  "That feed was mean as!",
  "All good, no drama.",
  "Hard out, that was intense!",
  "Ka pai! Well done!",
  "Kia ora, welcome everyone!",
  "We're going tramping this weekend.",
  "Grab your jandals, we're going to the beach.",
  "Let's go to the dairy for some milk.",
  "We're staying at the bach.",
  "That's a mint car, bro!",
  "Whanau is coming over for dinner.",
  "The tamariki are playing outside.",
  "Let's do a tiki tour around town.",
  "Choice bro, see you later.",
  "That's pretty mean, cuz!"]

def regionalUK : List String := [
  "Cheers mate, appreciate it!",
  "That's absolutely brilliant!",
  "Blimey, that was unexpected!",
  "Don't talk rubbish.",
  "That seems a bit dodgy to me.",
  "I'm gobsmacked by the news!",
  "I'm well chuffed with the result.",
  "Fancy a cuppa?",
  "That's proper good, innit?",
  "I'm knackered, need some sleep.",
  "Let's pop to the shops.",
  "I'll ring you later.",
  "Queueing is a way of life here.",
  "The telly is on too loud.",
  "I'm going to the loo.",
  "That's a load of codswallop!",
  "I'm feeling a bit poorly today.",
  "Mind the gap please.",
  "Lovely weather for ducks!",
  "Sorted, we're all good now."]

def regionalUS : List String := [
  "What's up, how's it going?",
  "That's awesome, dude!",
  "I'm gonna grab some coffee.",
  "Let's hang out this weekend.",
  "That's totally cool with me.",
  "I'm good, thanks for asking.",
  "We should totally do that.",
  "No worries, it's all good.",
  "I'm super excited about this!",
  "Let me check my schedule real quick.",
  "I gotta run, catch you later!",
  "That's so sick, bro!",
  "We're grabbing some takeout.",
  "I'll shoot you a text later.",
  "That's lit, for real!",
  "I'm down for whatever.",
  "Let's bounce, it's getting late.",
  "I'm so done with this.",
  "That slaps, honestly.",
  "No cap, that was amazing."]

def REGIONAL_SENTENCES : List (String × List String) := [
  ("SG", regionalSG),
  ("MY", regionalMY),
  ("IN", regionalIN),
  ("PH", regionalPH),
  ("NG", regionalNG),
  ("ZA", regionalZA),
  ("HK", regionalHK),
  ("IE", regionalIE),
  ("SC", regionalSC),
  ("AU", regionalAU),
  ("NZ", regionalNZ),
  ("UK", regionalUK),
  ("US", regionalUS)]

def SHORT_MESSAGES : List String :=
  ["ok", "okay", "k", "kk", "yep", "yup", "nope", "nah",
   "ya", "yeah", "yes", "no", "sure", "cool", "nice", "great",
   "thanks", "thx", "ty", "np", "yw", "please", "pls", "sorry",
   "sry", "hi", "hey", "hello", "bye", "later", "soon", "now",
   "wait", "omw", "otw", "brb", "brt", "ttyl", "gtg", "g2g",
   "lol", "lmao", "haha", "hehe", "idk", "idc", "imo", "imho",
   "tbh", "nvm", "jk", "ikr", "smh", "fyi", "btw", "asap",
   "omg", "wtf", "wth", "rn", "atm", "fr", "ngl", "ong",
   "bet", "facts", "true", "same", "mood", "vibes", "slay", "fire",
   "goat", "goated", "bussin", "cap", "no cap", "lowkey", "highkey", "sus",
   "based", "mid", "lit", "valid", "bet", "word", "say less", "less",
   "sounds good", "sounds great", "all good", "no problem", "no worries", "got it", "on my way", "be right there",
   "be there soon", "running late", "almost there", "see you soon", "see you later", "talk later", "call you later", "text me",
   "let me know", "keep me posted", "what's up", "how are you", "you good", "wanna hang", "wanna come", "you down",
   "i'm down", "count me in", "i'm in", "can't make it", "maybe later", "rain check", "next time", "my bad",
   "all good", "no rush", "take your time", "whenever you can", "when you're free", "good morning", "good night", "sleep well",
   "have fun", "good luck", "congrats", "happy birthday", "thank you so much", "appreciate it", "means a lot", "miss you",
   "love you", "thinking of you", "checking in", "just checking", "quick question", "one sec", "hold on", "coming",
   "leaving now", "here", "where are you", "you there", "anyone home", "hello?", "you up"]

def PRESERVED_ABBREVIATIONS : List String :=
  ["u", "r", "ur", "y", "n", "k", "b", "pls",
   "plz", "thx", "thnx", "ty", "yw", "np", "sry", "bc",
   "cuz", "tho", "rn", "tmr", "tmrw", "tn", "ytd", "msg",
   "mins", "secs", "hrs", "wks", "omw", "otw", "brb", "brt",
   "ttyl", "gtg", "g2g", "lol", "lmao", "rofl", "idk", "idc",
   "imo", "imho", "tbh", "nvm", "jk", "ikr", "smh", "fyi",
   "btw", "asap", "omg", "wtf", "wth", "afk", "irl", "fomo",
   "yolo", "tmi", "dm", "pm", "hmu", "lmk", "wyd", "hbu",
   "ily", "ilysm", "bff", "bf", "gf", "gonna", "wanna", "gotta",
   "kinda", "sorta", "dunno", "lemme", "gimme", "gotcha", "whatcha", "coulda",
   "shoulda", "woulda", "oughta", "hafta", "outta", "tryna", "finna", "boutta",
   "imma", "fr", "ngl", "ong", "lowkey", "highkey", "sus", "bussin",
   "slay", "goated", "mid", "based", "valid", "bet", "cap", "nocap",
   "rizz", "simp", "stan", "vibe", "yeet", "sheesh", "bruh", "fam",
   "lit"]

/-- ALL_PROTECTED_WORDS (`english_variants.py` lines 409-411): the union over
all variants of the lowercased protected expressions.  The Python set is
modelled as a list used through membership. -/
def ALL_PROTECTED_WORDS : List String :=
  VARIANT_CONFIG.flatMap (fun p => p.2.protectedWords.map pyLower)

/-- get_spelling_for_variant (`english_variants.py` lines 836-871). -/
def getSpellingForVariant (word : String) (variant : String) : String :=
  let wordLower := pyLower word
  let isCapitalized := firstIsUpper word
  let isUp := pyIsUpper word
  let result :=
    if variant = "US" then
      match lookupKey wordLower SPELLING_UK_TO_US with
      | some r => r
      | none => wordLower
    else if variant = "UK" ∨ variant = "AU" then
      match lookupKey wordLower SPELLING_US_TO_UK with
      | some r => r
      | none => wordLower
    else wordLower
  if isUp then pyUpper result
  else if isCapitalized then pyCapitalize result
  else result

/-- Peeling of a token into (leading non-alphanumeric run, core, trailing
non-alphanumeric run).  This while-loop appears verbatim both in
`convert_sentence_spelling` (`english_variants.py` lines 893-901) and in
`corrupt_text_mobile` (`generate_typos.py` lines 534-543). -/
def peel (w : String) : String × String × String :=
  let d := w.data
  let lead := d.takeWhile (fun c => !(isAlnumChar c))
  let rest := d.dropWhile (fun c => !(isAlnumChar c))
  let core := (rest.reverse.dropWhile (fun c => !(isAlnumChar c))).reverse
  let trail := (rest.reverse.takeWhile (fun c => !(isAlnumChar c))).reverse
  (⟨lead⟩, ⟨core⟩, ⟨trail⟩)

/-- convert_sentence_spelling (`english_variants.py` lines 874-910). -/
def convertSentenceSpelling (sentence : String) (variant : String) : String :=
  let words := splitWs sentence
  let converted := words.map (fun w =>
    let (lead, core, trail) := peel w
    let core := if !core.isEmpty then getSpellingForVariant core variant else core
    lead ++ core ++ trail)
  String.intercalate " " converted

/-- `VARIANT_CONFIG.get(variant, VARIANT_CONFIG['US'])`, the fallback lookup
used by `get_sample_sentences` and `generate_dataset`. -/
def variantConfigGet (variant : String) : VariantConfig :=
  match lookupKey variant VARIANT_CONFIG with
  | some c => c
  | none => configUS

/-- get_sample_sentences (`english_variants.py` lines 913-940). -/
def getSampleSentences (variant : String) (includeRegional includeShort : Bool) :
    List String :=
  let config := variantConfigGet variant
  let sentences := EV_SAMPLE_SENTENCES.map
    (fun s => convertSentenceSpelling s config.spelling)
  let sentences :=
    if includeRegional then
      match lookupKey variant REGIONAL_SENTENCES with
      | some l => sentences ++ l
      | none => sentences
    else sentences
  if includeShort then sentences ++ SHORT_MESSAGES else sentences

/-- get_protected_words (`english_variants.py` lines 943-961); `none` models
the Python argument `variant=None`.  Python returns sets; the lists here are
membership-equivalent unions in iteration order. -/
def getProtectedWords : Option String → List String
  | none => ALL_PROTECTED_WORDS ++ PRESERVED_ABBREVIATIONS
  | some variant =>
    match lookupKey variant VARIANT_CONFIG with
    | some config => PRESERVED_ABBREVIATIONS ++ config.protectedWords.map pyLower
    | none => PRESERVED_ABBREVIATIONS

/-- Strip set `'.,!?;:\'\"'` of `is_protected_word`. -/
def stripSetShort : List Char := ['.', ',', '!', '?', ';', ':', '\'', '\"']

/-- Strip set `'.,!?;:\'\"()[]{}'` of `should_protect_word` (the braces are
written numerically). -/
def stripSetLong : List Char :=
  stripSetShort ++ ['(', ')', '[', ']', Char.ofNat 123, Char.ofNat 125]

/-- is_protected_word (`english_variants.py` lines 964-977). -/
def isProtectedWord (word : String) (variant : Option String) : Bool :=
  let wordLower := stripChars (pyLower word) stripSetShort
  decide (wordLower ∈ getProtectedWords variant)

/-! Executable boolean checkers used to certify finite facts about the
spelling table by kernel evaluation (they are proof apparatus, not part of
the embedded program). -/

/-- Boolean equality of character lists. -/
def eqStr : List Char → List Char → Bool
  | [], [] => true
  | a :: as, b :: bs => a == b && eqStr as bs
  | _, _ => false

/-- Boolean equality of strings. -/
def beqS (a b : String) : Bool := eqStr a.data b.data

/-- Boolean membership of a string in a string list. -/
def memS (x : String) : List String → Bool
  | [] => false
  | y :: ys => beqS x y || memS x ys

/-- Boolean duplicate-freedom of a string list. -/
def nodupS : List String → Bool
  | [] => true
  | x :: xs => !(memS x xs) && nodupS xs

/-- Boolean universal quantifier over a list. -/
def allB {α : Type} (f : α → Bool) : List α → Bool
  | [] => true
  | x :: xs => f x && allB f xs

/-- Keys of the forward spelling table. -/
def spellingKeys : List String := SPELLING_US_TO_UK.map (fun p => p.1)

/-- Values of the forward spelling table. -/
def spellingValues : List String := SPELLING_US_TO_UK.map (fun p => p.2)

/-- Local casing facts needed about each spelling pair: both sides are fixed
by lowercasing, capitalizing or uppercasing them interacts with
`pyLower` / `pyIsUpper` / `firstIsUpper` in the expected ASCII way. -/
def caseOkPair (p : String × String) : Bool :=
  beqS (pyLower p.1) p.1 && beqS (pyLower p.2) p.2 &&
  beqS (pyLower (pyCapitalize p.1)) p.1 && beqS (pyLower (pyCapitalize p.2)) p.2 &&
  beqS (pyLower (pyUpper p.1)) p.1 && beqS (pyLower (pyUpper p.2)) p.2 &&
  !(pyIsUpper p.1) && !(pyIsUpper p.2) &&
  !(firstIsUpper p.1) && !(firstIsUpper p.2) &&
  !(pyIsUpper (pyCapitalize p.1)) && !(pyIsUpper (pyCapitalize p.2)) &&
  firstIsUpper (pyCapitalize p.1) && firstIsUpper (pyCapitalize p.2) &&
  pyIsUpper (pyUpper p.1) && pyIsUpper (pyUpper p.2)

/-! Embedding of `src/data/generate_typos.py`. -/

/-- MOBILE_ADJACENT_KEYS (`generate_typos.py` lines 48-80): QWERTY adjacency. -/
def MOBILE_ADJACENT_KEYS : List (Char × List Char) := [
  ('q', ['w', 'a', 's']),
  ('w', ['q', 'e', 'a', 's', 'd']),
  ('e', ['w', 'r', 's', 'd', 'f']),
  ('r', ['e', 't', 'd', 'f', 'g']),
  ('t', ['r', 'y', 'f', 'g', 'h']),
  ('y', ['t', 'u', 'g', 'h', 'j']),
  ('u', ['y', 'i', 'h', 'j', 'k']),
  ('i', ['u', 'o', 'j', 'k', 'l']),
  ('o', ['i', 'p', 'k', 'l']),
  ('p', ['o', 'l']),
  ('a', ['q', 'w', 's', 'z', 'x']),
  ('s', ['q', 'w', 'e', 'a', 'd', 'z', 'x', 'c']),
  ('d', ['w', 'e', 'r', 's', 'f', 'x', 'c', 'v']),
  ('f', ['e', 'r', 't', 'd', 'g', 'c', 'v', 'b']),
  ('g', ['r', 't', 'y', 'f', 'h', 'v', 'b', 'n']),
  ('h', ['t', 'y', 'u', 'g', 'j', 'b', 'n', 'm']),
  ('j', ['y', 'u', 'i', 'h', 'k', 'n', 'm']),
  ('k', ['u', 'i', 'o', 'j', 'l', 'm']),
  ('l', ['i', 'o', 'p', 'k']),
  ('z', ['a', 's', 'x']),
  ('x', ['a', 's', 'd', 'z', 'c']),
  ('c', ['s', 'd', 'f', 'x', 'v']),
  ('v', ['d', 'f', 'g', 'c', 'b']),
  ('b', ['f', 'g', 'h', 'v', 'n']),
  ('n', ['g', 'h', 'j', 'b', 'm']),
  ('m', ['h', 'j', 'k', 'n'])]

/-- THUMB_TYPING_ERRORS (`generate_typos.py` lines 170-284).  The dict literal
lists the key `have` twice (lines 174 and 206); Python keeps the later
value, so only the line-206 entry appears. -/
def THUMB_TYPING_ERRORS : List (String × List String) := [
  ("the", ["thr", "tue", "rhe", "tge", "yhe", "th", "te"]),
  ("and", ["ans", "abd", "snd", "amd", "anf", "anx", "nd"]),
  ("that", ["thar", "thst", "rhat", "yhat", "tgat", "thay"]),
  ("have", ["habe", "hsve", "jave", "havee", "hve"]),
  ("for", ["fir", "fot", "gor", "dor", "fpr", "fo"]),
  ("are", ["ate", "arr", "arf", "sre", "ae", "arre"]),
  ("but", ["bur", "vut", "bir", "nit", "byt", "bt"]),
  ("not", ["nit", "nor", "noy", "mot", "nof", "nt"]),
  ("you", ["yiu", "tou", "yoy", "ypu", "uou", "yo"]),
  ("all", ["sll", "akk", "al", "alll", "alk"]),
  ("can", ["csn", "cab", "van", "xan", "cann", "cn"]),
  ("had", ["hsd", "jad", "haf", "hax", "hadd"]),
  ("her", ["hee", "het", "jer", "hrr", "ger"]),
  ("was", ["wss", "qas", "wad", "eaw", "wa", "wass"]),
  ("one", ["onr", "obe", "ine", "ond", "on", "onee"]),
  ("our", ["oir", "oyr", "pur", "out", "ou"]),
  ("out", ["oit", "put", "oyt", "our", "ot", "outt"]),
  ("day", ["dat", "dau", "fay", "dsy", "dy"]),
  ("get", ["gwt", "het", "ger", "grt", "gt", "gett"]),
  ("has", ["hss", "jas", "hsd", "gas", "hs"]),
  ("him", ["hom", "hin", "jim", "gim", "hum"]),
  ("his", ["hos", "hia", "jis", "hiss", "hs"]),
  ("how", ["hiw", "jow", "hoe", "gow", "hw"]),
  ("its", ["ita", "irs", "ots", "itss", "ts"]),
  ("may", ["mat", "nay", "msy", "mau", "my"]),
  ("new", ["nee", "mew", "nrw", "bew", "nw"]),
  ("now", ["niw", "mow", "noe", "bow", "nw"]),
  ("say", ["sat", "sau", "ssy", "aay", "sy"]),
  ("two", ["teo", "twi", "rwo", "tw", "twoo"]),
  ("way", ["wau", "wsy", "eay", "qay", "wy"]),
  ("who", ["whi", "eho", "qho", "wgo", "wh"]),
  ("did", ["fid", "dud", "didd", "dd", "sid"]),
  ("she", ["shr", "ahe", "dhe", "shee", "sh"]),
  ("been", ["bern", "veen", "bren", "ben", "beenn"]),
  ("from", ["frim", "fron", "feom", "grom", "frm"]),
  ("into", ["inti", "inro", "intoo", "unto", "nto"]),
  ("just", ["jusr", "kust", "jsut", "jist", "jst"]),
  ("like", ["lile", "likr", "luke", "lik", "loke"]),
  ("make", ["makr", "maje", "nake", "mke", "msle"]),
  ("more", ["mire", "morr", "nore", "mote", "mre"]),
  ("only", ["onlt", "inly", "omly", "oly", "onky"]),
  ("over", ["iver", "ovet", "pver", "ovee", "ovr"]),
  ("such", ["suxh", "sich", "suvh", "sch", "sucj"]),
  ("take", ["tske", "takr", "rake", "taje", "tke"]),
  ("than", ["tham", "tjan", "rhan", "thn", "thsn"]),
  ("them", ["thrm", "rhem", "tjem", "thm", "tgem"]),
  ("then", ["tjen", "rhen", "thrn", "thn", "tgen"]),
  ("this", ["thia", "thjs", "rhis", "thos", "ths"]),
  ("time", ["tine", "timr", "rime", "tume", "tme"]),
  ("very", ["vety", "veru", "bery", "vry", "verg"]),
  ("want", ["wanr", "qant", "wamt", "wnt", "wabt"]),
  ("well", ["wekk", "qell", "wrll", "wll", "welll"]),
  ("were", ["wete", "qere", "wrer", "wre", "weee"]),
  ("what", ["wjat", "qhat", "whst", "wht", "whay"]),
  ("when", ["wjen", "qhen", "whrn", "whn", "wheb"]),
  ("will", ["eill", "wikk", "qill", "wil", "willl"]),
  ("with", ["woth", "wirh", "qith", "wth", "wiyh"]),
  ("word", ["wird", "worf", "qord", "wrd", "worx"]),
  ("work", ["wirk", "wotk", "qork", "wrk", "wprk"]),
  ("year", ["yeat", "yesr", "uear", "yar", "yeae"]),
  ("your", ["yoir", "ypur", "uour", "yor", "youe"]),
  ("about", ["aboit", "sbout", "abour", "abt", "abput"]),
  ("after", ["aftet", "sfter", "afrer", "aftr", "aftee"]),
  ("again", ["agsin", "sgain", "agaun", "agin", "agaib"]),
  ("being", ["beinf", "veing", "brung", "bing", "beibg"]),
  ("could", ["coild", "ciuld", "cpuld", "cld", "coudl"]),
  ("first", ["furst", "forst", "dirst", "frst", "firat"]),
  ("great", ["grear", "gteat", "grwat", "grt", "greay"]),
  ("never", ["neved", "mever", "nevee", "nvr", "nevwr"]),
  ("other", ["othet", "orher", "pther", "othr", "othee"]),
  ("right", ["righr", "roght", "rugjt", "rght", "righy"]),
  ("still", ["stoll", "srill", "atill", "stll", "stikl"]),
  ("thank", ["thabk", "tjank", "rhank", "thnk", "thsnk"]),
  ("their", ["theur", "tjeir", "rheir", "thir", "theie"]),
  ("there", ["thete", "tjere", "rhere", "thre", "theee"]),
  ("these", ["thesw", "tjese", "rhese", "thse", "thesee"]),
  ("think", ["thunk", "tjink", "rhink", "thnk", "thibl"]),
  ("those", ["thise", "tjose", "rhose", "thse", "thosee"]),
  ("three", ["thfee", "tjree", "rhree", "thre", "threee"]),
  ("today", ["todat", "roday", "todau", "tday", "todsy"]),
  ("under", ["unfer", "ubder", "inder", "undr", "undee"]),
  ("water", ["wated", "qater", "watee", "watr", "watef"]),
  ("where", ["whete", "qhere", "wjere", "whre", "wheee"]),
  ("which", ["whuch", "qhich", "wjich", "whch", "whicj"]),
  ("while", ["whike", "qhile", "wjile", "whle", "whilw"]),
  ("world", ["wirld", "qorld", "wprld", "wrld", "worle"]),
  ("would", ["woukd", "qould", "woyld", "wld", "woudl"]),
  ("write", ["wriyr", "qrite", "wfite", "wrte", "writw"]),
  ("going", ["goung", "giing", "goinf", "gng", "goibg"]),
  ("typing", ["typong", "tyoing", "typinf", "typng", "typibg"]),
  ("office", ["offixe", "iffice", "offuce", "offce", "officw"]),
  ("because", ["becayse", "becauae", "vecause", "bcause", "becuase"]),
  ("people", ["pwople", "oeople", "peopke", "ppl", "peoplee"]),
  ("should", ["shoild", "ahould", "shpuld", "shld", "shoudl"]),
  ("through", ["thrpugh", "tjrough", "throigh", "thru", "througj"]),
  ("hello", ["jello", "helli", "hrllo", "hllo", "helllo"]),
  ("message", ["messafe", "nessage", "messsgr", "msg", "mesaage"]),
  ("meeting", ["mweting", "meering", "neetkng", "mtng", "meetibg"]),
  ("morning", ["mornong", "norning", "mornibg", "mrng", "mornimg"]),
  ("thanks", ["tjanks", "rhanks", "thsnks", "thx", "thankss"]),
  ("please", ["pleaae", "olease", "plesse", "pls", "pleasee"]),
  ("sorry", ["sorrt", "sirry", "sorru", "sry", "sorrry"]),
  ("really", ["reall", "rwally", "reakky", "rly", "reallt"]),
  ("thing", ["thong", "thinf", "rhing", "thng", "thibg"]),
  ("things", ["thongs", "thinfs", "rhings", "thngs", "thibgs"]),
  ("something", ["somethong", "somwthing", "somerhing", "smth", "somethimg"]),
  ("someone", ["someobe", "soneone", "somrone", "smone", "someonee"]),
  ("anything", ["anythong", "anytjing", "snything", "anythng", "anythimg"]),
  ("everything", ["everythong", "everytjing", "evrrything", "evrythng", "everythimg"]),
  ("nothing", ["nothong", "notjing", "borhing", "nthng", "nothimg"]),
  ("i", ["u", "o", "k"]),
  ("a", ["s", "q", "z"])]

/-- PROTECTED_PROPER_NOUNS (`generate_typos.py` lines 336-361), a Python set
modelled as a list used through membership. -/
def PROTECTED_PROPER_NOUNS : List String :=
  ["iphone", "ipad", "macbook", "airpods", "imac", "ios",
   "macos", "ipados", "android", "samsung", "galaxy", "pixel",
   "oneplus", "huawei", "xiaomi", "google", "gmail", "youtube",
   "chrome", "chromebook", "microsoft", "windows", "xbox", "linkedin",
   "github", "vscode", "facebook", "instagram", "whatsapp", "messenger",
   "meta", "twitter", "tiktok", "snapchat", "discord", "slack",
   "zoom", "teams", "amazon", "alexa", "kindle", "aws",
   "netflix", "spotify", "uber", "lyft", "airbnb", "paypal",
   "venmo", "cashapp", "stripe", "shopify", "tesla", "spacex",
   "openai", "chatgpt", "claude", "anthropic", "gmail", "outlook",
   "yahoo", "hotmail", "icloud", "dropbox", "onedrive", "notion",
   "figma", "canva", "photoshop", "illustrator", "premiere", "john",
   "jane", "mike", "david", "sarah", "emma", "james",
   "mary", "michael", "jennifer", "robert", "linda", "william",
   "elizabeth", "london", "paris", "tokyo", "singapore", "sydney",
   "melbourne", "new york", "los angeles", "san francisco", "seattle", "chicago",
   "mumbai", "delhi", "bangalore", "manila", "lagos", "johannesburg",
   "dublin", "edinburgh", "auckland", "wellington", "hong kong", "kuala lumpur"]

/-- The seven per-word error operators of ERROR_WEIGHTS
(`generate_typos.py` lines 84-92). -/
inductive ErrorType
  | adjacent
  | omission
  | insertion
  | transposition
  | substitution
  | spaceError
  | caseError
deriving DecidableEq

/-- ERROR_WEIGHTS (`generate_typos.py` lines 84-92).  The weighted
`random.choices` draw over this table is modelled by the oracle field
`WordRand.et`; the weights themselves play no role in any claim, which
quantify over all outcomes. -/
def ERROR_WEIGHTS : List (ErrorType × ℚ) :=
  [(.adjacent, mkRat 35 100), (.omission, mkRat 20 100), (.insertion, mkRat 15 100),
   (.transposition, mkRat 15 100), (.substitution, mkRat 5 100), (.spaceError, mkRat 5 100),
   (.caseError, mkRat 5 100)]

/-- The five spacebar-miss outcomes of SPACEBAR_ERRORS
(`generate_typos.py` lines 287-293). -/
inductive SpacebarKind
  | spaceToB
  | spaceToN
  | spaceToV
  | doubleSpace
  | noSpace
deriving DecidableEq

/-- SPACEBAR_ERRORS (`generate_typos.py` lines 287-293), modelled like
ERROR_WEIGHTS. -/
def SPACEBAR_ERRORS : List (SpacebarKind × ℚ) :=
  [(.spaceToB, mkRat 2 10), (.spaceToN, mkRat 2 10), (.spaceToV, mkRat 1 10),
   (.doubleSpace, mkRat 2 10), (.noSpace, mkRat 3 10)]

/-- should_protect_word (`generate_typos.py` lines 364-397). -/
def shouldProtectWord (word : String) (variant : Option String) : Bool :=
  let wordLower := stripChars (pyLower word) stripSetLong
  if wordLower ∈ PRESERVED_ABBREVIATIONS then true
  else if wordLower ∈ PROTECTED_PROPER_NOUNS then true
  else if isProtectedWord word variant then true
  else if pyIsDigit (removeChar (removeChar wordLower '.') ',') then true
  else if wordLower.length = 1 then true
  else false

/-- One span-merge step of find_protected_spans
(`generate_typos.py` lines 416-421): `cur` is the last accepted span, a new
span merges into it when its start is at most `cur`'s end. -/
def mergeLoop : (ℕ × ℕ) → List (ℕ × ℕ) → List (ℕ × ℕ)
  | cur, [] => [cur]
  | cur, (s, e) :: rest =>
    if s ≤ cur.2 then mergeLoop (cur.1, max cur.2 e) rest
    else cur :: mergeLoop (s, e) rest

/-- Lexicographic order on spans, the order of Python `list.sort()` on
`(start, end)` tuples. -/
def spanLe (a b : ℕ × ℕ) : Prop := a.1 < b.1 ∨ (a.1 = b.1 ∧ a.2 ≤ b.2)

instance : DecidableRel spanLe := fun a b => by
  unfold spanLe; infer_instance

instance : IsTotal (ℕ × ℕ) spanLe :=
  ⟨fun a b => by unfold spanLe; omega⟩

instance : IsTrans (ℕ × ℕ) spanLe :=
  ⟨fun a b c hab hbc => by unfold spanLe at *; omega⟩

/-- find_protected_spans (`generate_typos.py` lines 400-424).  The per-regex
match collection (`pattern.finditer` over PROTECTED_PATTERNS, an external
`re`-library call) is abstracted as the input list of `(start, end)` match
spans; the embedded part is the sort-and-merge logic of lines 413-424.
Sorting is insertion sort by the same total lexicographic order as Python's
stable sort, which yields the identical sorted list because equal spans are
indistinguishable. -/
def findProtectedSpans (spans : List (ℕ × ℕ)) : List (ℕ × ℕ) :=
  match List.insertionSort spanLe spans with
  | [] => []
  | x :: xs => mergeLoop x xs

/-- apply_adjacent_error (`generate_typos.py` lines 427-433); `adjIdx` models
the uniform `random.choice` over the adjacency list. -/
def applyAdjacentError (c : Char) (adjIdx : ℕ) : Char :=
  match lookupKey (lowerChar c) MOBILE_ADJACENT_KEYS with
  | some adjacent =>
    let a := adjacent.getD (adjIdx % adjacent.length) c
    if isLowerChar c then a else upperChar a
  | none => c

/-- apply_omission (`generate_typos.py` lines 436-440). -/
def applyOmission (word : String) (pos : ℕ) : String :=
  if word.length ≤ 1 then word
  else ⟨word.data.take pos ++ word.data.drop (pos + 1)⟩

/-- apply_insertion (`generate_typos.py` lines 443-452); `dup` models the
`random.random() < 0.6` draw. -/
def applyInsertion (word : String) (pos : ℕ) (dup : Bool) (adjIdx : ℕ) : String :=
  if word.length ≤ pos then word
  else
    let c := word.data.getD pos ' '
    if dup then ⟨word.data.take pos ++ c :: word.data.drop pos⟩
    else ⟨word.data.take pos ++ applyAdjacentError c adjIdx :: word.data.drop pos⟩

/-- apply_transposition (`generate_typos.py` lines 455-461). -/
def applyTransposition (word : String) (pos : ℕ) : String :=
  if word.length ≤ pos + 1 then word
  else ⟨word.data.take pos ++
    [word.data.getD (pos + 1) ' ', word.data.getD pos ' '] ++
    word.data.drop (pos + 2)⟩

/-- Python `ch.swapcase()` on the ASCII fragment. -/
def swapCaseChar (c : Char) : Char :=
  if isLowerChar c then upperChar c
  else if isUpperChar c then lowerChar c
  else c

/-- Python `chars[pos] = c` on a copy of the word. -/
def setCharAt (word : String) (pos : ℕ) (c : Char) : String :=
  ⟨word.data.set pos c⟩

/-- The lowercase alphabet of the substitution operator
(`generate_typos.py` line 506). -/
def lowercaseLetters : List Char :=
  ['a', 'b', 'c', 'd', 'e', 'f', 'g', 'h', 'i', 'j', 'k', 'l', 'm',
   'n', 'o', 'p', 'q', 'r', 's', 't', 'u', 'v', 'w', 'x', 'y', 'z']

/-- Random draws consumed by one invocation of corrupt_word_mobile:
`thumb` is the `random.random() < 0.3` outcome, `thumbIdx` the uniform
choice among the thumb-typo variants, `et` the weighted operator draw,
`pos` the `random.randint(0, len(word)-1)` draw (used modulo the length),
`dup` the `random.random() < 0.6` outcome inside apply_insertion,
`adjIdx` the uniform adjacent-key choice and `subIdx` the uniform
letter choice of the substitution operator. -/
structure WordRand where
  thumb : Bool
  thumbIdx : ℕ
  et : ErrorType
  pos : ℕ
  dup : Bool
  adjIdx : ℕ
  subIdx : ℕ

/-- corrupt_word_mobile (`generate_typos.py` lines 464-514). -/
def corruptWordMobile (word : String) (r : WordRand) : String :=
  if word.length ≤ 1 then word
  else
    let wordLower := pyLower word
    if (lookupKey wordLower THUMB_TYPING_ERRORS).isSome && r.thumb then
      let options := (lookupKey wordLower THUMB_TYPING_ERRORS).getD []
      let typo := options.getD (r.thumbIdx % options.length) ""
      let typo :=
        if firstIsUpper word && decide (0 < typo.length)
        then upperFirstChar typo else typo
      let typo := if pyIsUpper word then pyUpper typo else typo
      typo
    else
      let pos := r.pos % word.length
      match r.et with
      | .adjacent =>
        setCharAt word pos (applyAdjacentError (word.data.getD pos ' ') r.adjIdx)
      | .omission => applyOmission word pos
      | .insertion => applyInsertion word pos r.dup r.adjIdx
      | .transposition => applyTransposition word pos
      | .substitution =>
        setCharAt word pos (lowercaseLetters.getD (r.subIdx % 26) 'a')
      | .caseError => setCharAt word pos (swapCaseChar (word.data.getD pos ' '))
      | .spaceError => word

/-- Random draws consumed by one invocation of corrupt_text_mobile, indexed
by the word position `i` where the sequential Python stream is consumed at
word `i`: `rateDraw i` is the `random.random() < error_rate` draw,
`wordR i` the draws of the corrupt_word_mobile call on word `i`,
`spaceDraw i` the `random.random() < 0.03` draw, `spaceKind i` the weighted
SPACEBAR_ERRORS choice, and the four tail fields are the post-processing
draws of lines 577-586. -/
structure SentRand where
  rateDraw : ℕ → ℚ
  wordR : ℕ → WordRand
  spaceDraw : ℕ → ℚ
  spaceKind : ℕ → SpacebarKind
  firstLowerDraw : ℚ
  commaDraw : ℚ
  periodDraw : ℚ
  apostropheDraw : ℚ

/-- The word loop of corrupt_text_mobile (`generate_typos.py` lines
532-572).  `acc` is `result_words` in reverse (so Python's
`result_words[-1]` is the head), and the second component logs, in order,
every core actually passed to corrupt_word_mobile. -/
def ctmLoop (rate : ℚ) (variant : Option String) (r : SentRand) :
    List String → ℕ → List String → List String → List String × List String
  | [], _, acc, lg => (acc.reverse, lg.reverse)
  | w :: ws, i, acc, lg =>
    let (lead, core, trail) := peel w
    if shouldProtectWord core variant then
      ctmLoop rate variant r ws (i + 1) ((lead ++ core ++ trail) :: acc) lg
    else
      let fire := !core.isEmpty && decide (r.rateDraw i < rate)
      let core2 := if fire then corruptWordMobile core (r.wordR i) else core
      let lg2 := if fire then core :: lg else lg
      let entry := lead ++ core2 ++ trail
      if decide (0 < i) && decide (r.spaceDraw i < mkRat 3 100) then
        match r.spaceKind i with
        | .noSpace =>
          match acc with
          | last :: accRest =>
            ctmLoop rate variant r ws (i + 1) ((last ++ entry) :: accRest) lg2
          | [] => ctmLoop rate variant r ws (i + 1) (entry :: acc) lg2
        | .doubleSpace => ctmLoop rate variant r ws (i + 1) (entry :: "" :: acc) lg2
        | .spaceToB => ctmLoop rate variant r ws (i + 1) (entry :: "b" :: acc) lg2
        | .spaceToN => ctmLoop rate variant r ws (i + 1) (entry :: "n" :: acc) lg2
        | .spaceToV => ctmLoop rate variant r ws (i + 1) (entry :: "v" :: acc) lg2
      else ctmLoop rate variant r ws (i + 1) (entry :: acc) lg2

/-- corrupt_text_mobile (`generate_typos.py` lines 517-588).  Returns the
corrupted text together with the list of cores on which corrupt_word_mobile
was invoked. -/
def corruptTextMobile (text : String) (rate : ℚ) (variant : Option String)
    (r : SentRand) : String × List String :=
  let (resultWords, lg) := ctmLoop rate variant r (splitWs text) 0 [] []
  let result := String.intercalate " " resultWords
  let result :=
    if !result.isEmpty && decide (r.firstLowerDraw < mkRat 15 100)
    then lowerFirstChar result else result
  let result := if decide (r.commaDraw < mkRat 1 10) then removeChar result ',' else result
  let result := if decide (r.periodDraw < mkRat 1 20) then removeChar result '.' else result
  let result :=
    if decide (r.apostropheDraw < mkRat 1 20) then removeChar result '\'' else result
  (result, lg)

/-- One emitted record of generate_dataset (`generate_typos.py` lines
718-723 and 744-749). -/
structure CorruptionSample where
  input : String
  output : String
  variant : String
  typoType : String
deriving DecidableEq

/-- The bounded retry loop of generate_dataset (`generate_typos.py` lines
736-739): while the corruption equals the clean sentence or duplicates an
already-generated variant, redraw, at most five times.  `oracle a` is the
result of the corrupt_text_mobile call of attempt `a` (the internal draws of
that call, and the boosted error rate, are absorbed into the oracle). -/
def retryLoop (clean : String) (generated : List String) (oracle : ℕ → String) :
    String → ℕ → ℕ → String
  | cur, _, 0 => cur
  | cur, a, fuel + 1 =>
    if cur = clean ∨ cur ∈ generated then
      retryLoop clean generated oracle (oracle a) (a + 1) fuel
    else cur

/-- The variants_per_sample loop of generate_dataset (`generate_typos.py`
lines 728-749).  `n` counts the remaining iterations, `v` the current
iteration index (oracle argument), `generated` the set of corrupted strings
already emitted for this clean sentence. -/
def variantLoop (clean vc : String) (oracle : ℕ → ℕ → String) :
    ℕ → ℕ → List String → List CorruptionSample
  | 0, _, _ => []
  | n + 1, v, generated =>
    let c := retryLoop clean generated (oracle v) (oracle v 0) 1 5
    if c ∈ generated then variantLoop clean vc oracle n (v + 1) generated
    else
      { input := c, output := clean, variant := vc,
        typoType := if c ≠ clean then "corrupted" else "none" } ::
      variantLoop clean vc oracle n (v + 1) (c :: generated)

/-- Random draws consumed by generate_dataset, indexed by the draw number
`i`: `pickIdx i` models the uniform `random.choice` over the sentence pool,
`cleanDraw i` the `random.random() < clean_sample_ratio` draw, and
`corrupt i v a` the result of the corrupt_text_mobile call of draw `i`,
variant iteration `v`, attempt `a` (the error-rate choice of lines 730 and
738 only parameterizes that call's distribution and is absorbed into it). -/
structure GenRand where
  pickIdx : ℕ → ℕ
  cleanDraw : ℕ → ℚ
  corrupt : ℕ → ℕ → ℕ → String

/-- One iteration of the sampling loop of generate_dataset
(`generate_typos.py` lines 711-749): pick a sentence, emit a single clean
record when the clean draw fires, otherwise run the variants loop. -/
def drawSample (pool : List String) (vc : String) (ratio : ℚ) (vps : ℕ)
    (u : ℚ) (pick : ℕ) (oracle : ℕ → ℕ → String) : List CorruptionSample :=
  let clean := pool.getD (pick % pool.length) ""
  if u < ratio then [{ input := clean, output := clean, variant := vc, typoType := "none" }]
  else variantLoop clean vc oracle vps 0 []

/-- generate_dataset (`generate_typos.py` lines 677-755).  The sentence pool
`all_sentences = list(set(variant_sentences + base_sentences))` (lines
697-705) is passed as the parameter `pool`: its order after Python's `set`
round-trip depends on the process hash seed, so it is quantified over; the
claims hold for every pool. -/
def generateDataset (pool : List String) (numSamples : ℕ) (vc : String)
    (ratio : ℚ) (vps : ℕ) (g : GenRand) : List CorruptionSample :=
  (List.range numSamples).flatMap fun i =>
    drawSample pool vc ratio vps (g.cleanDraw i) (g.pickIdx i) (g.corrupt i)

/-! Concrete oracles used by witnesses and counterexamples. -/

/-- A fixed word-level draw record. -/
def wr0 : WordRand :=
  { thumb := false, thumbIdx := 0, et := ErrorType.adjacent, pos := 0,
    dup := false, adjIdx := 0, subIdx := 0 }

/-- Sentence draws whose first-letter-lowercase draw fires (value 0 is below
the 0.15 threshold) while every spacebar draw and the punctuation draws miss
(value 1 is above every threshold). -/
def srFirstLower : SentRand :=
  { rateDraw := fun _ => 0, wordR := fun _ => wr0, spaceDraw := fun _ => 1,
    spaceKind := fun _ => SpacebarKind.noSpace, firstLowerDraw := 0,
    commaDraw := 1, periodDraw := 1, apostropheDraw := 1 }

/-- Sentence draws where no spacebar draw and no post-processing draw fires. -/
def srQuiet : SentRand :=
  { rateDraw := fun _ => 0, wordR := fun _ => wr0, spaceDraw := fun _ => 1,
    spaceKind := fun _ => SpacebarKind.noSpace, firstLowerDraw := 1,
    commaDraw := 1, periodDraw := 1, apostropheDraw := 1 }

/-- A fixed word-level draw record selecting the space_error operator. -/
def wrSpace : WordRand :=
  { thumb := false, thumbIdx := 0, et := ErrorType.spaceError, pos := 0,
    dup := false, adjIdx := 0, subIdx := 0 }

/-- A one-sentence pool for dataset witnesses. -/
def poolW : List String := ["hi there"]

/-- Dataset draws whose clean draw is 0 and whose corruption oracle always
returns the fixed string "zz". -/
def grW : GenRand :=
  { pickIdx := fun _ => 0, cleanDraw := fun _ => 0, corrupt := fun _ _ _ => "zz" }

/-- A constant corruption oracle used by witnesses. -/
def orZZ : ℕ → ℕ → String := fun _ _ => "zz"

/-! Bridge lemmas for the boolean checkers. -/

theorem eqStr_iff (s t : List Char) : eqStr s t = true ↔ s = t := by
  induction s generalizing t with
  | nil => cases t <;> simp [eqStr]
  | cons a as ih => cases t <;> simp [eqStr, ih]

theorem beqS_iff (a b : String) : beqS a b = true ↔ a = b := by
  unfold beqS
  rw [eqStr_iff]
  constructor
  · intro h
    cases a; cases b; exact congrArg String.mk h
  · intro h
    rw [h]

theorem memS_iff (x : String) (l : List String) : memS x l = true ↔ x ∈ l := by
  induction l with
  | nil => simp [memS]
  | cons y ys ih => simp [memS, beqS_iff, ih]

theorem nodupS_nodup (l : List String) (h : nodupS l = true) : l.Nodup := by
  induction l with
  | nil => simp
  | cons x xs ih =>
    simp only [nodupS, Bool.and_eq_true, Bool.not_eq_true'] at h
    rw [List.nodup_cons]
    refine ⟨fun hm => ?_, ih h.2⟩
    rw [← memS_iff x xs] at hm
    rw [h.1] at hm
    cases hm

theorem allB_iff {α : Type} (f : α → Bool) (l : List α) :
    allB f l = true ↔ ∀ x ∈ l, f x = true := by
  induction l with
  | nil => simp [allB]
  | cons x xs ih => simp [allB, ih]

/-! Association-list lookup lemmas (the embedded dicts have distinct keys). -/

theorem lookupKey_eq_some_of_mem {l : List (String × String)}
    (hnd : (l.map (fun p => p.1)).Nodup) {a b : String} (hmem : (a, b) ∈ l) :
    lookupKey a l = some b := by
  induction l with
  | nil => cases hmem
  | cons x t ih =>
    rw [List.map_cons, List.nodup_cons] at hnd
    rcases List.mem_cons.mp hmem with h | h
    · rw [← h]
      simp [lookupKey]
    · have hne : a ≠ x.1 := by
        intro e
        exact hnd.1 (e ▸ List.mem_map_of_mem (fun p => p.1) h)
      simp [lookupKey, hne, ih hnd.2 h]

theorem lookupKey_swap_eq_some {l : List (String × String)}
    (hnd : (l.map (fun p => p.2)).Nodup) {a b : String} (hmem : (a, b) ∈ l) :
    lookupKey b (l.map fun p => (p.2, p.1)) = some a := by
  induction l with
  | nil => cases hmem
  | cons x t ih =>
    rw [List.map_cons, List.nodup_cons] at hnd
    rcases List.mem_cons.mp hmem with h | h
    · rw [← h]
      simp [lookupKey]
    · have hne : b ≠ x.2 := by
        intro e
        exact hnd.1 (e ▸ List.mem_map_of_mem (fun p => p.2) h)
      rw [List.map_cons]
      show lookupKey b ((x.2, x.1) :: List.map (fun p => (p.2, p.1)) t) = some a
      simp [lookupKey, hne, ih hnd.2 h]

theorem lookupKey_eq_none_iff {α : Type} {k : String} {l : List (String × α)} :
    lookupKey k l = none ↔ ∀ p ∈ l, k ≠ p.1 := by
  induction l with
  | nil => simp [lookupKey]
  | cons x t ih =>
    by_cases hk : k = x.1
    · simp [lookupKey, hk]
    · simp [lookupKey, hk, ih]

/-! Kernel-checked facts about the spelling table. -/

theorem spelling_keys_nodupS : nodupS spellingKeys = true := by rfl

theorem spelling_values_nodupS : nodupS spellingValues = true := by rfl

theorem spelling_caseOk : allB caseOkPair SPELLING_US_TO_UK = true := by rfl

theorem spelling_interB :
    allB (fun p => beqS p.1 "fulfilled" || !(memS p.1 spellingValues))
      SPELLING_US_TO_UK = true := by rfl

/-! Shape lemmas for get_spelling_for_variant. -/

theorem getSpelling_us_shape (w a : String)
    (hlk : lookupKey (pyLower w) SPELLING_UK_TO_US = some a) :
    getSpellingForVariant w "US" =
      if pyIsUpper w then pyUpper a
      else if firstIsUpper w then pyCapitalize a else a := by
  simp [getSpellingForVariant, hlk]

theorem getSpelling_uk_shape (w b : String)
    (hlk : lookupKey (pyLower w) SPELLING_US_TO_UK = some b) :
    getSpellingForVariant w "UK" =
      if pyIsUpper w then pyUpper b
      else if firstIsUpper w then pyCapitalize b else b := by
  simp [getSpellingForVariant, hlk]

/-- C2: for every (us, uk) pair in the US-to-UK spelling table, converting
uk to the US system returns us and converting us to the UK system returns
uk, and capitalization is restored per the stated rule: all-upper input
gives all-upper output and initial-capital input gives initial-capital
output; in particular convert("Colour","US") = "Color" and
convert("COLOUR","US") = "COLOR". -/
theorem spelling_round_trip :
    (∀ p ∈ SPELLING_US_TO_UK,
      getSpellingForVariant p.2 "US" = p.1 ∧
      getSpellingForVariant p.1 "UK" = p.2 ∧
      getSpellingForVariant (pyUpper p.2) "US" = pyUpper p.1 ∧
      getSpellingForVariant (pyCapitalize p.2) "US" = pyCapitalize p.1 ∧
      getSpellingForVariant (pyUpper p.1) "UK" = pyUpper p.2 ∧
      getSpellingForVariant (pyCapitalize p.1) "UK" = pyCapitalize p.2)
    ∧ getSpellingForVariant "Colour" "US" = "Color"
    ∧ getSpellingForVariant "COLOUR" "US" = "COLOR" := by
  have hknd : (SPELLING_US_TO_UK.map (fun p => p.1)).Nodup :=
    nodupS_nodup _ spelling_keys_nodupS
  have hvnd : (SPELLING_US_TO_UK.map (fun p => p.2)).Nodup :=
    nodupS_nodup _ spelling_values_nodupS
  have hcase := (allB_iff caseOkPair SPELLING_US_TO_UK).mp spelling_caseOk
  have main : ∀ p ∈ SPELLING_US_TO_UK,
      getSpellingForVariant p.2 "US" = p.1 ∧
      getSpellingForVariant p.1 "UK" = p.2 ∧
      getSpellingForVariant (pyUpper p.2) "US" = pyUpper p.1 ∧
      getSpellingForVariant (pyCapitalize p.2) "US" = pyCapitalize p.1 ∧
      getSpellingForVariant (pyUpper p.1) "UK" = pyUpper p.2 ∧
      getSpellingForVariant (pyCapitalize p.1) "UK" = pyCapitalize p.2 := by
    intro p hp
    obtain ⟨a, b⟩ := p
    have hc := hcase (a, b) hp
    simp only [caseOkPair, Bool.and_eq_true, beqS_iff, Bool.not_eq_true',
      and_assoc] at hc
    obtain ⟨h1, h2, h3, h4, h5, h6, h7, h8, h9, h10, h11, h12, h13, h14,
      h15, h16⟩ := hc
    have hfwd : lookupKey a SPELLING_US_TO_UK = some b :=
      lookupKey_eq_some_of_mem hknd hp
    have hrev : lookupKey b SPELLING_UK_TO_US = some a :=
      lookupKey_swap_eq_some hvnd hp
    refine ⟨?_, ?_, ?_, ?_, ?_, ?_⟩
    · rw [getSpelling_us_shape b a (by rw [h2]; exact hrev)]
      simp [h8, h10]
    · rw [getSpelling_uk_shape a b (by rw [h1]; exact hfwd)]
      simp [h7, h9]
    · rw [getSpelling_us_shape (pyUpper b) a (by rw [h6]; exact hrev)]
      simp [h16]
    · rw [getSpelling_us_shape (pyCapitalize b) a (by rw [h4]; exact hrev)]
      simp [h12, h14]
    · rw [getSpelling_uk_shape (pyUpper a) b (by rw [h5]; exact hfwd)]
      simp [h15]
    · rw [getSpelling_uk_shape (pyCapitalize a) b (by rw [h3]; exact hfwd)]
      simp [h11, h13]
  have hp : (("color", "colour") : String × String) ∈ SPELLING_US_TO_UK := by
    decide
  refine ⟨main, ?_, ?_⟩
  · have h := (main ("color", "colour") hp).2.2.2.1
    have e1 : pyCapitalize "colour" = "Colour" := rfl
    have e2 : pyCapitalize "color" = "Color" := rfl
    rw [e1, e2] at h
    exact h
  · have h := (main ("color", "colour") hp).2.2.1
    have e1 : pyUpper "colour" = "COLOUR" := rfl
    have e2 : pyUpper "color" = "COLOR" := rfl
    rw [e1, e2] at h
    exact h

/-- C2 witness: the round trip evaluated at the (color, colour) pair. -/
theorem spelling_round_trip_witness :
    getSpellingForVariant "colour" "US" = "color" :=
  (spelling_round_trip.1 ("color", "colour") (by decide)).1

/-- C3 counterexample: "fulfilled" (which the forward table maps to itself)
is a key of the forward table and also a key of the derived reverse table,
so the claim that no word is simultaneously a key of both is false. -/
theorem spelling_tables_overlap_cx :
    "fulfilled" ∈ SPELLING_US_TO_UK.map (fun p => p.1)
    ∧ "fulfilled" ∈ SPELLING_UK_TO_US.map (fun p => p.1) := by
  constructor <;> decide

/-- C3 amended: for every (a, b) in the forward US-to-UK table, (b, a) is in
the derived reverse table, and the only word that is a key of both the
forward and the reverse table is "fulfilled", which the forward table maps
to itself. -/
theorem spelling_tables_symmetric_amended :
    (∀ p ∈ SPELLING_US_TO_UK, (p.2, p.1) ∈ SPELLING_UK_TO_US)
    ∧ (∀ w ∈ SPELLING_US_TO_UK.map (fun p => p.1),
        w ∈ SPELLING_UK_TO_US.map (fun p => p.1) → w = "fulfilled")
    ∧ ("fulfilled", "fulfilled") ∈ SPELLING_US_TO_UK := by
  have hint := (allB_iff _ _).mp spelling_interB
  refine ⟨?_, ?_, by decide⟩
  · intro p hp
    exact List.mem_map_of_mem (fun p => (p.2, p.1)) hp
  · intro w hw hw'
    obtain ⟨p, hp, hpe⟩ := List.mem_map.mp hw
    have h := hint p hp
    simp only [Bool.or_eq_true, beqS_iff, Bool.not_eq_true', hpe] at h
    rcases h with h | h
    · exact h.symm ▸ rfl
    · exfalso
      obtain ⟨q, hq, hqe⟩ := List.mem_map.mp hw'
      have hwv : w ∈ spellingValues := by
        obtain ⟨q', hq', hq'e⟩ := List.mem_map.mp hw'
        have : q' ∈ SPELLING_US_TO_UK.map (fun p => (p.2, p.1)) := hq'
        obtain ⟨q'', hq'', hq''e⟩ := List.mem_map.mp this
        rw [← hq'e, ← hq''e]
        exact List.mem_map_of_mem (fun p => p.2) hq''
      rw [← memS_iff] at hwv
      rw [← hpe] at h
      rw [hpe] at h
      rw [h] at hwv
      cases hwv

/-- C3 witness: symmetry applied to the (color, colour) pair. -/
theorem spelling_tables_symmetric_witness :
    (("colour", "color") : String × String) ∈ SPELLING_UK_TO_US :=
  spelling_tables_symmetric_amended.1 ("color", "colour") (by decide)

/-- C4 counterexample: on the scenario sentence the converter does not
return the claimed all-lowercase-start "i realised my favourite colour is
grey." — the word "I" is fully uppercase, so the uppercase branch
recapitalizes it. -/
theorem convert_sentence_scenario_cx :
    convertSentenceSpelling "I realized my favorite color is gray." "UK"
    ≠ "i realised my favourite colour is grey." := by decide

/-- C4 amended: the scenario sentence converts to
"I realised my favourite colour is grey." — identical to the claimed output
except that the initial "I", being a fully-uppercase word, is restored to
uppercase by the stated casing rule. -/
theorem convert_sentence_scenario_amended :
    convertSentenceSpelling "I realized my favorite color is gray." "UK"
    = "I realised my favourite colour is grey." := by decide

/-- C7 counterexample: for an unknown variant code the sentence lookup does
not behave as it does for "US": the fallback keeps the US spelling but drops
the US regional-expression sentences, so the two sentence lists differ. -/
theorem unknown_variant_sentences_cx :
    getSampleSentences "XX" true true ≠ getSampleSentences "US" true true := by
  intro e
  exact absurd (congrArg List.length e) (by decide)

/-- Every region with curated regional sentences is a configured variant. -/
theorem regional_keys_configured :
    ∀ p ∈ REGIONAL_SENTENCES, ∃ q ∈ VARIANT_CONFIG, p.1 = q.1 := by
  decide

/-- C7 amended: an unknown variant code falls back to the default "US"
configuration at every `VARIANT_CONFIG` lookup site and raises no error —
`get_protected_words` returns exactly the set it returns for "US" and
`generate_dataset`'s config lookup yields the US config — but
`get_sample_sentences` does not behave as it does for "US": it produces the
US-spelling base sentences plus the short messages while omitting the US
regional-expression list, so its result differs from the "US" one. -/
theorem unknown_variant_fallback_amended (v : String)
    (hv : lookupKey v VARIANT_CONFIG = none) :
    variantConfigGet v = configUS
    ∧ getProtectedWords (some v) = getProtectedWords (some "US")
    ∧ getSampleSentences v true true
        = EV_SAMPLE_SENTENCES.map (fun s => convertSentenceSpelling s "US")
          ++ SHORT_MESSAGES
    ∧ getSampleSentences v true true ≠ getSampleSentences "US" true true := by
  have hreg : lookupKey v REGIONAL_SENTENCES = none := by
    rw [lookupKey_eq_none_iff]
    intro p hp he
    obtain ⟨q, hq, hqe⟩ := regional_keys_configured p hp
    rw [lookupKey_eq_none_iff] at hv
    exact hv q hq (he.trans hqe)
  have h1 : variantConfigGet v = configUS := by
    unfold variantConfigGet
    rw [hv]
  have h3 : getSampleSentences v true true
      = EV_SAMPLE_SENTENCES.map (fun s => convertSentenceSpelling s "US")
        ++ SHORT_MESSAGES := by
    unfold getSampleSentences
    rw [h1, hreg]
    rfl
  refine ⟨h1, ?_, h3, ?_⟩
  · show (match lookupKey v VARIANT_CONFIG with
      | some config => PRESERVED_ABBREVIATIONS ++ config.protectedWords.map pyLower
      | none => PRESERVED_ABBREVIATIONS)
      = getProtectedWords (some "US")
    rw [hv]
    show PRESERVED_ABBREVIATIONS
      = PRESERVED_ABBREVIATIONS ++ (configUS.protectedWords.map pyLower)
    simp [configUS]
  · rw [h3]
    intro e
    exact absurd (congrArg List.length e) (by decide)

/-- C7 witness: the fallback behavior evaluated at the unknown code "XX". -/
theorem unknown_variant_fallback_witness :
    variantConfigGet "XX" = configUS
    ∧ getProtectedWords (some "XX") = getProtectedWords (some "US")
    ∧ getSampleSentences "XX" true true
        = EV_SAMPLE_SENTENCES.map (fun s => convertSentenceSpelling s "US")
          ++ SHORT_MESSAGES
    ∧ getSampleSentences "XX" true true ≠ getSampleSentences "US" true true :=
  unknown_variant_fallback_amended "XX" (by decide)

/-! Lemmas about the span-merge loop of find_protected_spans. -/

theorem mergeLoop_head : ∀ (l : List (ℕ × ℕ)) (c : ℕ × ℕ),
    ∃ e t, mergeLoop c l = (c.1, e) :: t ∧ c.2 ≤ e := by
  intro l
  induction l with
  | nil => exact fun c => ⟨c.2, [], rfl, le_refl _⟩
  | cons hd tl ih =>
    intro c
    obtain ⟨s, e⟩ := hd
    by_cases hse : s ≤ c.2
    · obtain ⟨E, t, heq, hle⟩ := ih (c.1, max c.2 e)
      refine ⟨E, t, ?_, le_trans (le_max_left _ _) hle⟩
      rw [mergeLoop, if_pos hse]
      exact heq
    · refine ⟨c.2, mergeLoop (s, e) tl, ?_, le_refl _⟩
      rw [mergeLoop, if_neg hse]

theorem mergeLoop_starts : ∀ (l : List (ℕ × ℕ)) (c q : ℕ × ℕ),
    q ∈ mergeLoop c l → q.1 = c.1 ∨ ∃ p ∈ l, q.1 = p.1 := by
  intro l
  induction l with
  | nil =>
    intro c q hq
    rw [mergeLoop] at hq
    rcases List.mem_singleton.mp hq with h
    exact Or.inl (by rw [h])
  | cons hd tl ih =>
    intro c q hq
    obtain ⟨s, e⟩ := hd
    by_cases hse : s ≤ c.2
    · rw [mergeLoop, if_pos hse] at hq
      rcases ih _ q hq with h | ⟨p, hp, he⟩
      · exact Or.inl h
      · exact Or.inr ⟨p, List.mem_cons_of_mem _ hp, he⟩
    · rw [mergeLoop, if_neg hse] at hq
      rcases List.mem_cons.mp hq with h | h
      · exact Or.inl (by rw [h])
      · rcases ih _ q h with h' | ⟨p, hp, he⟩
        · exact Or.inr ⟨(s, e), List.mem_cons_self _ _, h'⟩
        · exact Or.inr ⟨p, List.mem_cons_of_mem _ hp, he⟩

theorem mergeLoop_chain : ∀ (l : List (ℕ × ℕ)) (c : ℕ × ℕ),
    List.Chain' (fun a b => a.2 < b.1) (mergeLoop c l) := by
  intro l
  induction l with
  | nil =>
    intro c
    rw [mergeLoop]
    exact List.chain'_singleton c
  | cons hd tl ih =>
    intro c
    obtain ⟨s, e⟩ := hd
    by_cases hse : s ≤ c.2
    · rw [mergeLoop, if_pos hse]
      exact ih _
    · rw [mergeLoop, if_neg hse]
      obtain ⟨E, t, heq, _⟩ := mergeLoop_head tl (s, e)
      rw [heq]
      rw [List.chain'_cons]
      refine ⟨by omega, ?_⟩
      rw [← heq]
      exact ih _

theorem mergeLoop_pairwise : ∀ (l : List (ℕ × ℕ)) (c : ℕ × ℕ),
    (∀ p ∈ l, c.1 ≤ p.1) → List.Pairwise (fun a b => a.1 ≤ b.1) l →
    List.Pairwise (fun a b => a.1 ≤ b.1) (mergeLoop c l) := by
  intro l
  induction l with
  | nil =>
    intro c _ _
    rw [mergeLoop]
    exact List.pairwise_singleton _ c
  | cons hd tl ih =>
    intro c hle hpw
    obtain ⟨s, e⟩ := hd
    rw [List.pairwise_cons] at hpw
    by_cases hse : s ≤ c.2
    · rw [mergeLoop, if_pos hse]
      exact ih (c.1, max c.2 e)
        (fun p hp => hle p (List.mem_cons_of_mem _ hp)) hpw.2
    · rw [mergeLoop, if_neg hse]
      rw [List.pairwise_cons]
      refine ⟨?_, ih (s, e) hpw.1 hpw.2⟩
      intro q hq
      rcases mergeLoop_starts tl (s, e) q hq with h | ⟨p, hp, he⟩
      · rw [h]
        exact hle (s, e) (List.mem_cons_self _ _)
      · rw [he]
        exact hle p (List.mem_cons_of_mem _ hp)

theorem mergeLoop_cover : ∀ (l : List (ℕ × ℕ)) (c : ℕ × ℕ),
    (∀ p ∈ l, c.1 ≤ p.1) → List.Pairwise (fun a b => a.1 ≤ b.1) l →
    ∀ p ∈ c :: l, ∃ q ∈ mergeLoop c l, q.1 ≤ p.1 ∧ p.2 ≤ q.2 := by
  intro l
  induction l with
  | nil =>
    intro c _ _ p hp
    rcases List.mem_singleton.mp hp with h
    rw [mergeLoop, h]
    exact ⟨c, List.mem_singleton_self c, le_refl _, le_refl _⟩
  | cons hd tl ih =>
    intro c hle hpw p hp
    obtain ⟨s, e⟩ := hd
    rw [List.pairwise_cons] at hpw
    by_cases hse : s ≤ c.2
    · rw [mergeLoop, if_pos hse]
      have ihh := ih (c.1, max c.2 e)
        (fun q hq => hle q (List.mem_cons_of_mem _ hq)) hpw.2
      rcases List.mem_cons.mp hp with h | h
      · obtain ⟨q, hq, hq1, hq2⟩ :=
          ihh (c.1, max c.2 e) (List.mem_cons_self _ _)
        exact ⟨q, hq, by rw [h]; exact hq1, by rw [h]; omega⟩
      · rcases List.mem_cons.mp h with h' | h'
        · obtain ⟨q, hq, hq1, hq2⟩ :=
            ihh (c.1, max c.2 e) (List.mem_cons_self _ _)
          have hcs : c.1 ≤ s := hle (s, e) (List.mem_cons_self _ _)
          have hme : e ≤ max c.2 e := le_max_right _ _
          refine ⟨q, hq, ?_, ?_⟩
          · rw [h']
            exact le_trans hq1 hcs
          · rw [h']
            exact le_trans hme hq2
        · exact ihh p (List.mem_cons_of_mem _ h')
    · rw [mergeLoop, if_neg hse]
      rcases List.mem_cons.mp hp with h | h
      · exact ⟨c, List.mem_cons_self _ _, by rw [h], by rw [h]⟩
      · obtain ⟨q, hq, hq1, hq2⟩ := ih (s, e) hpw.1 hpw.2 p h
        exact ⟨q, List.mem_cons_of_mem _ hq, hq1, hq2⟩

/-- C5: for every collected list of pattern-match spans, find_protected_spans
returns spans sorted by start offset that are pairwise disjoint and
non-adjacent (each span's start is strictly greater than the previous span's
end), every character inside any input match span lies inside some returned
span (each input span is contained in a returned span), and the computation
is deterministic: two applications to the same input are equal. -/
theorem findProtectedSpans_spec (spans : List (ℕ × ℕ)) :
    List.Pairwise (fun a b => a.1 ≤ b.1) (findProtectedSpans spans)
    ∧ List.Chain' (fun a b => a.2 < b.1) (findProtectedSpans spans)
    ∧ (∀ p ∈ spans, ∃ q ∈ findProtectedSpans spans, q.1 ≤ p.1 ∧ p.2 ≤ q.2)
    ∧ findProtectedSpans spans = findProtectedSpans spans := by
  have hsorted : List.Sorted spanLe (List.insertionSort spanLe spans) :=
    List.sorted_insertionSort spanLe spans
  have hperm : ∀ p ∈ spans, p ∈ List.insertionSort spanLe spans := fun p hp =>
    (List.perm_insertionSort spanLe spans).mem_iff.mpr hp
  have hpw : List.Pairwise (fun a b : ℕ × ℕ => a.1 ≤ b.1)
      (List.insertionSort spanLe spans) := by
    refine hsorted.imp ?_
    intro a b hab
    rcases hab with h | ⟨h, _⟩
    · omega
    · omega
  unfold findProtectedSpans
  rcases hs : List.insertionSort spanLe spans with _ | ⟨x, xs⟩
  · refine ⟨List.Pairwise.nil, List.chain'_nil, ?_, rfl⟩
    intro p hp
    have := hperm p hp
    rw [hs] at this
    cases this
  · rw [hs] at hpw
    rw [List.pairwise_cons] at hpw
    refine ⟨mergeLoop_pairwise xs x hpw.1 hpw.2, mergeLoop_chain xs x, ?_, rfl⟩
    intro p hp
    have hmem := hperm p hp
    rw [hs] at hmem
    exact mergeLoop_cover xs x hpw.1 hpw.2 p hmem

/-- C9: for every word of length at least 2 that does not take the
whole-word thumb-typo replacement path, a weighted operator draw selecting
space_error makes corrupt_word_mobile return the word unchanged: the
word-level space_error draw is a no-op corruption. -/
theorem space_error_noop (word : String) (r : WordRand)
    (hlen : 2 ≤ word.length)
    (hth : ((lookupKey (pyLower word) THUMB_TYPING_ERRORS).isSome
      && r.thumb) = false)
    (het : r.et = ErrorType.spaceError) :
    corruptWordMobile word r = word := by
  unfold corruptWordMobile
  rw [if_neg (by omega : ¬ word.length ≤ 1)]
  simp only [hth, het, Bool.false_eq_true, if_false]

/-- C9 witness: the no-op evaluated on the word "qqqq" (not a thumb-typo
key) with a space_error draw. -/
theorem space_error_noop_witness : corruptWordMobile "qqqq" wrSpace = "qqqq" :=
  space_error_noop "qqqq" wrSpace (by decide) (by decide) rfl

/-! Lemmas about token peeling and the corrupt_text_mobile word loop. -/

theorem String.mk_append_mk (a b : List Char) :
    String.mk a ++ String.mk b = String.mk (a ++ b) := rfl

theorem peel_reassemble (w : String) :
    (peel w).1 ++ (peel w).2.1 ++ (peel w).2.2 = w := by
  obtain ⟨d⟩ := w
  show String.mk _ = String.mk d
  apply congrArg String.mk
  rw [List.append_assoc, ← List.reverse_append, List.takeWhile_append_dropWhile,
    List.reverse_reverse, List.takeWhile_append_dropWhile]

theorem ctmLoop_log (rate : ℚ) (variant : Option String) (r : SentRand) :
    ∀ (ws : List String) (i : ℕ) (acc lg : List String),
    ∃ lgNew,
      (ctmLoop rate variant r ws i acc lg).2 = lg.reverse ++ lgNew
      ∧ ∀ x ∈ lgNew, shouldProtectWord x variant = false := by
  intro ws
  induction ws with
  | nil =>
    intro i acc lg
    exact ⟨[], by simp [ctmLoop], by simp⟩
  | cons w ws ih =>
    intro i acc lg
    rcases hpeel : peel w with ⟨lead, core, trail⟩
    by_cases hpr : shouldProtectWord core variant = true
    · rw [ctmLoop]
      rw [hpeel]
      simp only [hpr, if_true]
      exact ih (i + 1) _ lg
    · rw [Bool.not_eq_true] at hpr
      have step : ∀ (acc' : List String),
          ∃ lgNew,
            (ctmLoop rate variant r ws (i + 1) acc'
              (if (!core.isEmpty && decide (r.rateDraw i < rate)) = true
                then core :: lg else lg)).2
              = lg.reverse ++ lgNew
            ∧ ∀ x ∈ lgNew, shouldProtectWord x variant = false := by
        intro acc'
        by_cases hf : (!core.isEmpty && decide (r.rateDraw i < rate)) = true
        · obtain ⟨lgNew, h1, h2⟩ := ih (i + 1) acc' (core :: lg)
          rw [if_pos hf] at *
          refine ⟨core :: lgNew, ?_, ?_⟩
          · rw [h1, List.reverse_cons, List.append_assoc]
            rfl
          · intro x hx
            rcases List.mem_cons.mp hx with h | h
            · rw [h]; exact hpr
            · exact h2 x h
        · obtain ⟨lgNew, h1, h2⟩ := ih (i + 1) acc' lg
          rw [if_neg hf] at *
          exact ⟨lgNew, h1, h2⟩
      rw [ctmLoop]
      rw [hpeel]
      simp only [hpr, Bool.false_eq_true, if_false]
      split
      · split
        · split
          · exact step _
          · exact step _
        · exact step _
        · exact step _
        · exact step _
        · exact step _
      · exact step _

theorem ctmLoop_entries (rate : ℚ) (variant : Option String) (r : SentRand)
    (hsp : ∀ j, ¬(r.spaceDraw j < mkRat 3 100)) :
    ∀ (ws : List String) (i : ℕ) (acc lg : List String),
    ∃ entries,
      (ctmLoop rate variant r ws i acc lg).1 = acc.reverse ++ entries
      ∧ List.Forall₂ (fun w e =>
          shouldProtectWord (peel w).2.1 variant = true → e = w) ws entries := by
  intro ws
  induction ws with
  | nil =>
    intro i acc lg
    exact ⟨[], by simp [ctmLoop], List.Forall₂.nil⟩
  | cons w ws ih =>
    intro i acc lg
    rcases hpeel : peel w with ⟨lead, core, trail⟩
    have hnosp : (decide (0 < i) && decide (r.spaceDraw i < mkRat 3 100)) = false := by
      rw [decide_eq_false (hsp i), Bool.and_false]
    by_cases hpr : shouldProtectWord core variant = true
    · rw [ctmLoop]
      rw [hpeel]
      simp only [hpr, if_true]
      obtain ⟨entries, h1, h2⟩ := ih (i + 1) ((lead ++ core ++ trail) :: acc) lg
      refine ⟨(lead ++ core ++ trail) :: entries, ?_, ?_⟩
      · rw [h1, List.reverse_cons, List.append_assoc]
        rfl
      · refine List.Forall₂.cons (fun _ => ?_) h2
        have := peel_reassemble w
        rw [hpeel] at this
        exact this
    · rw [Bool.not_eq_true] at hpr
      rw [ctmLoop]
      rw [hpeel]
      simp only [hpr, Bool.false_eq_true, if_false, hnosp]
      set entry := (lead ++
        (if (!core.isEmpty && decide (r.rateDraw i < rate)) = true
          then corruptWordMobile core (r.wordR i) else core) ++ trail) with hentry
      obtain ⟨entries, h1, h2⟩ := ih (i + 1) (entry :: acc)
        (if (!core.isEmpty && decide (r.rateDraw i < rate)) = true
          then core :: lg else lg)
      refine ⟨entry :: entries, ?_, ?_⟩
      · rw [h1, List.reverse_cons, List.append_assoc]
        rfl
      · refine List.Forall₂.cons (fun hc => ?_) h2
        rw [hpeel] at hc
        rw [hc] at hpr
        cases hpr

/-- C1 counterexample: with variant "UK" at error rate 1.0, on the sentence
"Cheers mate" there is an outcome of the random draws (the one modelled by
`srFirstLower`, where the 15% forgot-shift post-processing draw fires) in
which the token "Cheers" — whose punctuation-stripped lowercase core
"cheers" is in the UK protected set — does not appear byte-identical in the
output (it is emitted as "cheers"), even though corrupt_word_mobile was
never invoked (the call log is empty).  So the byte-identity half of the
claim fails for some outcomes. -/
theorem corruptText_protection_cx :
    "cheers" ∈ configUK.protectedWords
    ∧ stripChars (pyLower "Cheers") stripSetShort = "cheers"
    ∧ "Cheers" ∈ splitWs "Cheers mate"
    ∧ (corruptTextMobile "Cheers mate" 1 (some "UK") srFirstLower).2 = []
    ∧ "Cheers" ∉
        splitWs (corruptTextMobile "Cheers mate" 1 (some "UK") srFirstLower).1 := by
  exact ⟨by decide, by decide, by decide, by decide, by decide⟩

theorem corruptTextMobile_log (text : String) (rate : ℚ)
    (variant : Option String) (r : SentRand) :
    (corruptTextMobile text rate variant r).2
    = (ctmLoop rate variant r (splitWs text) 0 [] []).2 := by
  obtain ⟨rws, lg, h⟩ :
      ∃ rws lg, ctmLoop rate variant r (splitWs text) 0 [] [] = (rws, lg) :=
    ⟨_, _, rfl⟩
  unfold corruptTextMobile
  rw [h]

/-- C1 amended: for every sentence, variant, error rate and outcome of the
random draws — with no restriction on any draw — corrupt_text_mobile never
invokes corrupt_word_mobile on a token whose punctuation-stripped lowercase
core is protected for the variant: the call log contains only unprotected
cores.  Byte identity of the protected tokens in the output holds whenever
the sentence-level draws do not fire (no 3% spacebar error at any boundary,
no 15% forgot-shift lowercase, no comma/period/apostrophe strip): the
output is then the space-join of a word list that pairs the input tokens
one to one and keeps every protected token byte-identical. -/
theorem corruptText_protection_amended (text V : String) (rate : ℚ)
    (r : SentRand) :
    (∀ w ∈ (corruptTextMobile text rate (some V) r).2,
      shouldProtectWord w (some V) = false)
    ∧ ((∀ j, ¬(r.spaceDraw j < mkRat 3 100)) →
       ¬(r.firstLowerDraw < mkRat 15 100) →
       ¬(r.commaDraw < mkRat 1 10) →
       ¬(r.periodDraw < mkRat 1 20) →
       ¬(r.apostropheDraw < mkRat 1 20) →
       ∃ entries,
        (corruptTextMobile text rate (some V) r).1
          = String.intercalate " " entries
        ∧ List.Forall₂ (fun w e =>
            shouldProtectWord (peel w).2.1 (some V) = true → e = w)
          (splitWs text) entries) := by
  constructor
  · intro w hw
    obtain ⟨lgNew, h1, h2⟩ :=
      ctmLoop_log rate (some V) r (splitWs text) 0 [] []
    rw [corruptTextMobile_log] at hw
    simp only [List.reverse_nil, List.nil_append] at h1
    rw [h1] at hw
    exact h2 w hw
  · intro hsp hfl hcm hpd hap
    have hout : corruptTextMobile text rate (some V) r
        = (String.intercalate " "
            (ctmLoop rate (some V) r (splitWs text) 0 [] []).1,
          (ctmLoop rate (some V) r (splitWs text) 0 [] []).2) := by
      unfold corruptTextMobile
      rw [decide_eq_false hfl, decide_eq_false hcm, decide_eq_false hpd,
        decide_eq_false hap]
      simp only [Bool.and_false, Bool.false_eq_true, if_false]
    obtain ⟨entries, h1, h2⟩ :=
      ctmLoop_entries rate (some V) r hsp (splitWs text) 0 [] []
    simp only [List.reverse_nil, List.nil_append] at h1
    refine ⟨entries, ?_, h2⟩
    rw [hout, h1]

/-- C1 witness: the amended protection invariance evaluated on
"Cheers mate" with variant "UK", error rate 1 — the unconditional
never-invokes half at the first-lower-firing draws `srFirstLower`, and the
byte-identity half at the quiet draws `srQuiet` with its hypotheses
discharged. -/
theorem corruptText_protection_witness :
    (∀ w ∈ (corruptTextMobile "Cheers mate" 1 (some "UK") srFirstLower).2,
      shouldProtectWord w (some "UK") = false)
    ∧ ∃ entries,
        (corruptTextMobile "Cheers mate" 1 (some "UK") srQuiet).1
          = String.intercalate " " entries
        ∧ List.Forall₂ (fun w e =>
            shouldProtectWord (peel w).2.1 (some "UK") = true → e = w)
          (splitWs "Cheers mate") entries :=
  ⟨(corruptText_protection_amended "Cheers mate" "UK" 1 srFirstLower).1,
   (corruptText_protection_amended "Cheers mate" "UK" 1 srQuiet).2
     (fun j => show ¬((1 : ℚ) < mkRat 3 100) by decide)
     (by decide) (by decide) (by decide) (by decide)⟩

/-! Lemmas about the dataset builder loops. -/

theorem retryLoop_result (clean : String) (generated : List String)
    (oracle : ℕ → String) :
    ∀ (fuel : ℕ) (cur : String) (a : ℕ),
    retryLoop clean generated oracle cur a fuel = cur
    ∨ ∃ b, retryLoop clean generated oracle cur a fuel = oracle b := by
  intro fuel
  induction fuel with
  | zero => exact fun cur a => Or.inl rfl
  | succ f ih =>
    intro cur a
    rw [retryLoop]
    split
    · rcases ih (oracle a) (a + 1) with h | h
      · exact Or.inr ⟨a, h⟩
      · exact Or.inr h
    · exact Or.inl rfl

theorem variantLoop_spec (clean vc : String) (oracle : ℕ → ℕ → String) :
    ∀ (n v : ℕ) (generated : List String),
    (variantLoop clean vc oracle n v generated).length ≤ n
    ∧ ((variantLoop clean vc oracle n v generated).map
        (fun s => s.input)).Nodup
    ∧ (∀ x ∈ (variantLoop clean vc oracle n v generated).map
        (fun s => s.input), x ∉ generated)
    ∧ (∀ rec ∈ variantLoop clean vc oracle n v generated,
        rec.output = clean ∧ rec.variant = vc
        ∧ rec.typoType = (if rec.input ≠ clean then "corrupted" else "none")
        ∧ ∃ w b, rec.input = oracle w b) := by
  intro n
  induction n with
  | zero =>
    intro v generated
    simp [variantLoop]
  | succ m ih =>
    intro v generated
    rw [variantLoop]
    by_cases hc : retryLoop clean generated (oracle v) (oracle v 0) 1 5
        ∈ generated
    · rw [if_pos hc]
      obtain ⟨ihl, ihnd, ihdisj, ihrec⟩ := ih (v + 1) generated
      exact ⟨le_trans ihl (Nat.le_succ m), ihnd, ihdisj, ihrec⟩
    · rw [if_neg hc]
      set c := retryLoop clean generated (oracle v) (oracle v 0) 1 5 with hcdef
      obtain ⟨ihl, ihnd, ihdisj, ihrec⟩ := ih (v + 1) (c :: generated)
      refine ⟨?_, ?_, ?_, ?_⟩
      · simpa using Nat.succ_le_succ ihl
      · rw [List.map_cons, List.nodup_cons]
        refine ⟨fun hmem => ?_, ihnd⟩
        exact ihdisj c hmem (List.mem_cons_self _ _)
      · intro x hx
        rw [List.map_cons] at hx
        rcases List.mem_cons.mp hx with h | h
        · rw [h]; exact hc
        · intro hxg
          exact ihdisj x h (List.mem_cons_of_mem _ hxg)
      · intro rec hrec
        rcases List.mem_cons.mp hrec with h | h
        · rw [h]
          refine ⟨rfl, rfl, rfl, ?_⟩
          rcases retryLoop_result clean generated (oracle v) 5 (oracle v 0) 1
            with h' | ⟨b, h'⟩
          · exact ⟨v, 0, h'.symm ▸ rfl⟩
          · exact ⟨v, b, h'⟩
        · exact ihrec rec h

/-- C6: with clean_sample_ratio = 0 and variants_per_sample = 3, each
sentence draw contributes at most 3 emitted records; the emitted input
strings of one draw are pairwise textually distinct; every record that
fails to diverge from the clean sentence is flagged with typo_type "none"
rather than silently passed as corrupted; and whenever the (retry-capped)
corruption calls all differ from the clean sentence, every emitted input
differs from the clean sentence. -/
theorem generate_zero_clean_spec (pool : List String) (vc : String) (u : ℚ)
    (hu : 0 ≤ u) (pick : ℕ) (oracle : ℕ → ℕ → String) :
    (drawSample pool vc 0 3 u pick oracle).length ≤ 3
    ∧ ((drawSample pool vc 0 3 u pick oracle).map (fun s => s.input)).Nodup
    ∧ (∀ rec ∈ drawSample pool vc 0 3 u pick oracle,
        rec.output = pool.getD (pick % pool.length) ""
        ∧ (rec.input = rec.output → rec.typoType = "none"))
    ∧ ((∀ w b, oracle w b ≠ pool.getD (pick % pool.length) "") →
        ∀ rec ∈ drawSample pool vc 0 3 u pick oracle,
          rec.input ≠ rec.output) := by
  have hnu : ¬(u < 0) := not_lt.mpr hu
  have hds : drawSample pool vc 0 3 u pick oracle
      = variantLoop (pool.getD (pick % pool.length) "") vc oracle 3 0 [] := by
    unfold drawSample
    rw [if_neg hnu]
  obtain ⟨hl, hnd, _, hrec⟩ :=
    variantLoop_spec (pool.getD (pick % pool.length) "") vc oracle 3 0 []
  rw [hds]
  refine ⟨hl, hnd, ?_, ?_⟩
  · intro rec h
    obtain ⟨ho, _, ht, _⟩ := hrec rec h
    refine ⟨ho, fun hio => ?_⟩
    rw [ht, if_neg ?_]
    rw [hio, ho]
    simp
  · intro horacle rec h
    obtain ⟨ho, _, _, w, b, hin⟩ := hrec rec h
    rw [hin, ho]
    exact horacle w b

/-- C6 witness: the zero-clean-ratio draw evaluated on a concrete pool and
constant corruption oracle. -/
theorem generate_zero_clean_witness :
    (drawSample poolW "US" 0 3 0 0 orZZ).length ≤ 3
    ∧ ((drawSample poolW "US" 0 3 0 0 orZZ).map
        (fun s => s.input)).Nodup
    ∧ (∀ rec ∈ drawSample poolW "US" 0 3 0 0 orZZ,
        rec.output = poolW.getD (0 % poolW.length) ""
        ∧ (rec.input = rec.output → rec.typoType = "none"))
    ∧ ((∀ w b, orZZ w b ≠ poolW.getD (0 % poolW.length) "") →
        ∀ rec ∈ drawSample poolW "US" 0 3 0 0 orZZ,
          rec.input ≠ rec.output) :=
  generate_zero_clean_spec poolW "US" 0 (by decide) 0 orZZ

theorem flatMap_length_one {α β : Type} (l : List α) (f : α → List β)
    (h : ∀ a ∈ l, (f a).length = 1) : (l.flatMap f).length = l.length := by
  induction l with
  | nil => simp
  | cons x xs ih =>
    rw [List.flatMap_cons, List.length_append, h x (List.mem_cons_self _ _),
      ih (fun a ha => h a (List.mem_cons_of_mem _ ha)), List.length_cons]
    omega

/-- C8: with clean_sample_ratio = 1, every random() draw lies below the
ratio, so generate_dataset emits exactly one record per draw, and every
emitted record has input equal to output and typo_type "none". -/
theorem generate_all_clean_spec (pool : List String) (n : ℕ) (vc : String)
    (vps : ℕ) (g : GenRand)
    (hu : ∀ i, 0 ≤ g.cleanDraw i ∧ g.cleanDraw i < 1) :
    (generateDataset pool n vc 1 vps g).length = n
    ∧ ∀ rec ∈ generateDataset pool n vc 1 vps g,
        rec.input = rec.output ∧ rec.typoType = "none" := by
  have hdraw : ∀ i,
      drawSample pool vc 1 vps (g.cleanDraw i) (g.pickIdx i) (g.corrupt i)
      = [{ input := pool.getD (g.pickIdx i % pool.length) "",
           output := pool.getD (g.pickIdx i % pool.length) "",
           variant := vc, typoType := "none" }] := by
    intro i
    unfold drawSample
    rw [if_pos (hu i).2]
  constructor
  · unfold generateDataset
    rw [flatMap_length_one _ _ (fun i _ => by rw [hdraw i]; rfl)]
    exact List.length_range n
  · intro rec hrec
    unfold generateDataset at hrec
    obtain ⟨i, _, hmem⟩ := List.mem_flatMap.mp hrec
    rw [hdraw i] at hmem
    rcases List.mem_singleton.mp hmem with h
    rw [h]
    exact ⟨rfl, rfl⟩

/-- C8 witness: the all-clean generation evaluated on a concrete pool with
two draws. -/
theorem generate_all_clean_witness :
    (generateDataset poolW 2 "US" 1 3 grW).length = 2
    ∧ ∀ rec ∈ generateDataset poolW 2 "US" 1 3 grW,
        rec.input = rec.output ∧ rec.typoType = "none" :=
  generate_all_clean_spec poolW 2 "US" 3 grW
    (fun i => ⟨show (0 : ℚ) ≤ 0 by decide, show (0 : ℚ) < 1 by decide⟩)

/-- C10: every record emitted by generate_dataset, for any parameters and
any outcome of the random draws, has typo_type "none" exactly when its
input equals its output — including retry-exhausted corruption attempts
that still equal the clean sentence, which are emitted labeled "none". -/
theorem typoType_iff_unchanged (pool : List String) (n : ℕ) (vc : String)
    (ratio : ℚ) (vps : ℕ) (g : GenRand) :
    ∀ rec ∈ generateDataset pool n vc ratio vps g,
      (rec.typoType = "none" ↔ rec.input = rec.output) := by
  intro rec hrec
  unfold generateDataset at hrec
  obtain ⟨i, _, hmem⟩ := List.mem_flatMap.mp hrec
  unfold drawSample at hmem
  split at hmem
  · rcases List.mem_singleton.mp hmem with h
    rw [h]
    simp
  · obtain ⟨_, _, _, hrec'⟩ := variantLoop_spec
      (pool.getD (g.pickIdx i % pool.length) "") vc (g.corrupt i) vps 0 []
    obtain ⟨ho, _, ht, _⟩ := hrec' rec hmem
    by_cases hio : rec.input = rec.output
    · rw [ht, if_neg ?_]
      · simp [hio]
      · rw [hio, ho]
        simp
    · rw [ht, if_pos ?_]
      · constructor
        · intro h
          exact absurd h (by decide)
        · intro h
          exact absurd h hio
      · rw [← ho]
        exact hio

/-- C10 witness: the labeling equivalence evaluated at a concrete emitted
record. -/
theorem typoType_iff_unchanged_witness :
    (CorruptionSample.mk "hi there" "hi there" "US" "none").typoType = "none"
    ↔ (CorruptionSample.mk "hi there" "hi there" "US" "none").input
      = (CorruptionSample.mk "hi there" "hi there" "US" "none").output :=
  typoType_iff_unchanged poolW 1 "US" 1 3 grW
    (CorruptionSample.mk "hi there" "hi there" "US" "none") (by decide)

/-- C5 witness: the span specification evaluated on a concrete match list
with an overlap. -/
theorem findProtectedSpans_spec_witness :
    List.Pairwise (fun a b => a.1 ≤ b.1) (findProtectedSpans [(3, 5), (1, 4), (7, 8)])
    ∧ List.Chain' (fun a b => a.2 < b.1) (findProtectedSpans [(3, 5), (1, 4), (7, 8)])
    ∧ (∀ p ∈ [((3 : ℕ), (5 : ℕ)), (1, 4), (7, 8)],
        ∃ q ∈ findProtectedSpans [(3, 5), (1, 4), (7, 8)], q.1 ≤ p.1 ∧ p.2 ≤ q.2)
    ∧ findProtectedSpans [(3, 5), (1, 4), (7, 8)]
        = findProtectedSpans [(3, 5), (1, 4), (7, 8)] :=
  findProtectedSpans_spec [(3, 5), (1, 4), (7, 8)]
